import Mathlib

/-!
Verification development for the deterministic 1v1 arena-combat server.

The simulation core (game_simulation.hpp, game_state.hpp, input_state.hpp) is
embedded shallowly: C++ `float` arithmetic is idealised as real arithmetic
(`ℝ`), `uint8_t`/`uint16_t`/`uint32_t` counters as `ℕ` with explicit wrap-around
where the source can overflow, and `glm::vec3` as a record of three reals.
The wire codec is embedded separately at byte level (namespace `Wire`), with
each 32-bit scalar field modelled by its bit pattern (a `ℕ` below `2^32`) and
buffers as lists of byte values, mirroring the `memcpy`-based layout exactly.
The server connection handler (network_layer.hpp) is embedded as a pure
function from server state and the connecting peer to the new server state
plus the list of emitted network actions.
-/

namespace Sim

/-- Constants from `namespace GameConstants` in game_state.hpp. -/
noncomputable def STARTING_HP : ℝ := 100

noncomputable def PROJECTILE_DAMAGE : ℝ := 10

noncomputable def PROJECTILE_SPEED : ℝ := 20

noncomputable def PROJECTILE_COOLDOWN : ℝ := 1/2

noncomputable def PLAYER_SPEED : ℝ := 5

noncomputable def ROUND_TIME : ℝ := 99

/-- Constants from class GameSimulation in game_simulation.hpp. -/
noncomputable def FIXED_DT : ℝ := 1/60

noncomputable def ARENA_HALF_SIZE : ℝ := 20

noncomputable def PROJECTILE_RADIUS : ℝ := 1/2

noncomputable def PLAYER_RADIUS : ℝ := 1

/-- Shallow embedding of `glm::vec3`. -/
structure Vec3 where
  x : ℝ
  y : ℝ
  z : ℝ

/-- Componentwise vector addition (`operator+` of glm::vec3). -/
noncomputable def Vec3.add (a b : Vec3) : Vec3 := ⟨a.x + b.x, a.y + b.y, a.z + b.z⟩

/-- Componentwise vector subtraction (`operator-` of glm::vec3). -/
noncomputable def Vec3.sub (a b : Vec3) : Vec3 := ⟨a.x - b.x, a.y - b.y, a.z - b.z⟩

/-- Vector-scalar multiplication (`operator*` of glm::vec3 with a float). -/
noncomputable def Vec3.smul (a : Vec3) (r : ℝ) : Vec3 := ⟨a.x * r, a.y * r, a.z * r⟩

/-- Componentwise division by a scalar, used for `glm::normalize`. -/
noncomputable def Vec3.divs (a : Vec3) (r : ℝ) : Vec3 := ⟨a.x / r, a.y / r, a.z / r⟩

/-- Euclidean norm, `glm::length`. -/
noncomputable def Vec3.len (a : Vec3) : ℝ := Real.sqrt (a.x ^ 2 + a.y ^ 2 + a.z ^ 2)

/-- Shallow embedding of `struct InputState` (input_state.hpp). -/
structure InputState where
  moveX : ℝ
  moveY : ℝ
  throwProjectile : Bool
  frameNumber : ℕ

/-- Shallow embedding of `struct PlayerState` (game_state.hpp). -/
structure PlayerState where
  position : Vec3
  velocity : Vec3
  facingAngle : ℝ
  hp : ℝ
  projectileCooldown : ℝ
  roundWins : ℕ
  alive : Bool

/-- Shallow embedding of `struct ProjectileState` (game_state.hpp). -/
structure ProjectileState where
  position : Vec3
  velocity : Vec3
  ownerID : ℕ
  damage : ℝ
  active : Bool

/-- Shallow embedding of `struct GameState` (game_state.hpp); `players[2]`
becomes the two fields `players0`, `players1`. -/
structure GameState where
  players0 : PlayerState
  players1 : PlayerState
  projectiles : List ProjectileState
  frameNumber : ℕ
  roundTimer : ℝ
  currentRound : ℕ

/-- Indexed access to the `players[2]` array of the source. -/
def GameState.player (s : GameState) : Fin 2 → PlayerState
  | 0 => s.players0
  | 1 => s.players1

/-- Shallow embedding of the `GameSimulation` object; its only data member is
`bool prevThrowPressed[2]` (declared at game_simulation.hpp:75 and never read
or written by any member function). -/
structure GameSimulation where
  prevThrowPressed : Fin 2 → Bool

/-- `std::clamp(v, lo, hi)` for reals (with `lo ≤ hi`). -/
noncomputable def clampR (v lo hi : ℝ) : ℝ := max lo (min v hi)

/-- C library `atan2(y, x)` idealised over the reals (quadrant-correct
arctangent; signed-zero distinctions of IEEE floats are not modelled). -/
noncomputable def atan2R (y x : ℝ) : ℝ :=
  if 0 < x then Real.arctan (y / x)
  else if x < 0 ∧ 0 ≤ y then Real.arctan (y / x) + Real.pi
  else if x < 0 ∧ y < 0 then Real.arctan (y / x) - Real.pi
  else if x = 0 ∧ 0 < y then Real.pi / 2
  else if x = 0 ∧ y < 0 then -(Real.pi / 2)
  else 0

/-- `glm::degrees`. -/
noncomputable def degreesR (r : ℝ) : ℝ := r * (180 / Real.pi)

/-- `glm::radians`. -/
noncomputable def radiansR (d : ℝ) : ℝ := d * (Real.pi / 180)

/-- `GameSimulation::UpdatePlayer` (game_simulation.hpp:77-104): movement with
deadzone, facing update, per-axis arena clamp, cooldown decrement.  The
`playerIndex` argument is kept from the source signature; the body never uses
it. -/
noncomputable def UpdatePlayer (player : PlayerState) (input : InputState)
    (playerIndex : ℕ) : PlayerState :=
  if player.alive = false then player else
  let moveDir : Vec3 := ⟨input.moveX, 0, input.moveY⟩
  let moveLen : ℝ := moveDir.len
  let moved : Vec3 × ℝ :=
    if moveLen > 1/100 then
      (player.position.add (((moveDir.divs moveLen).smul PLAYER_SPEED).smul FIXED_DT),
       degreesR (atan2R input.moveX (-input.moveY)))
    else (player.position, player.facingAngle)
  let clamped : Vec3 :=
    ⟨clampR moved.1.x (-ARENA_HALF_SIZE) ARENA_HALF_SIZE, moved.1.y,
     clampR moved.1.z (-ARENA_HALF_SIZE) ARENA_HALF_SIZE⟩
  let cd : ℝ :=
    if player.projectileCooldown > 0 then
      let c := player.projectileCooldown - FIXED_DT
      if c < 0 then 0 else c
    else player.projectileCooldown
  { player with position := clamped, facingAngle := moved.2, projectileCooldown := cd }

/-- One projectile's move-and-deactivate step, from the loop body of
`GameSimulation::UpdateProjectiles` (game_simulation.hpp:115-125). -/
noncomputable def stepProjectile (proj : ProjectileState) : ProjectileState :=
  if proj.active = false then proj else
  let p := proj.position.add (proj.velocity.smul FIXED_DT)
  if |p.x| > ARENA_HALF_SIZE + 5 ∨ |p.z| > ARENA_HALF_SIZE + 5 then
    { proj with position := p, active := false }
  else
    { proj with position := p }

/-- `GameSimulation::UpdateProjectiles` (game_simulation.hpp:106-133): move
active projectiles, deactivate out-of-bounds ones, then erase-remove every
inactive projectile. -/
noncomputable def UpdateProjectiles (state : GameState) : GameState :=
  { state with projectiles :=
      (state.projectiles.map stepProjectile).filter (fun p => p.active) }

/-- The hit branch of `GameSimulation::CheckCollisions`
(game_simulation.hpp:149-158): subtract damage, deactivate the projectile,
clamp hp to 0 and kill on reaching 0. -/
noncomputable def hitPlayer (proj : ProjectileState) (target : PlayerState) :
    PlayerState × ProjectileState :=
  let hp1 := target.hp - proj.damage
  if hp1 ≤ 0 then
    ({ target with hp := 0, alive := false }, { proj with active := false })
  else
    ({ target with hp := hp1 }, { proj with active := false })

/-- Collision test of one projectile against one player (the sphere test at
game_simulation.hpp:146-149). -/
noncomputable def collisionHit (proj : ProjectileState) (target : PlayerState) : Prop :=
  (proj.position.sub target.position).len < PROJECTILE_RADIUS + PLAYER_RADIUS

noncomputable instance (proj : ProjectileState) (target : PlayerState) :
    Decidable (collisionHit proj target) := by
  unfold collisionHit; infer_instance

/-- The inner player loop of `GameSimulation::CheckCollisions` for one
projectile: try player 0 then player 1, skipping the owner and dead players,
breaking after the first hit. -/
noncomputable def collideProj (proj : ProjectileState) (p0 p1 : PlayerState) :
    ProjectileState × PlayerState × PlayerState :=
  if proj.active = false then (proj, p0, p1) else
  if proj.ownerID ≠ 0 ∧ p0.alive = true ∧ collisionHit proj p0 then
    let h := hitPlayer proj p0
    (h.2, h.1, p1)
  else if proj.ownerID ≠ 1 ∧ p1.alive = true ∧ collisionHit proj p1 then
    let h := hitPlayer proj p1
    (h.2, p0, h.1)
  else (proj, p0, p1)

/-- The projectile loop of `GameSimulation::CheckCollisions`, threading the
two (mutated-in-place in the source) player records through the list. -/
noncomputable def collideList : List ProjectileState → PlayerState → PlayerState →
    List ProjectileState × PlayerState × PlayerState
  | [], p0, p1 => ([], p0, p1)
  | proj :: rest, p0, p1 =>
      let s := collideProj proj p0 p1
      let t := collideList rest s.2.1 s.2.2
      (s.1 :: t.1, t.2.1, t.2.2)

/-- `GameSimulation::CheckCollisions` (game_simulation.hpp:135-162). -/
noncomputable def CheckCollisions (state : GameState) : GameState :=
  let r := collideList state.projectiles state.players0 state.players1
  { state with projectiles := r.1, players0 := r.2.1, players1 := r.2.2 }

/-- `roundWins++` on the `uint8_t` counter (wraps at 256). -/
def incWin (p : PlayerState) : PlayerState :=
  { p with roundWins := (p.roundWins + 1) % 256 }

/-- `GameSimulation::CheckWinConditions` (game_simulation.hpp:164-193): the
first dead player found (index order) makes the other player the winner;
otherwise at timeout the strictly-higher-hp player scores; equal hp scores
nobody. -/
noncomputable def CheckWinConditions (state : GameState) : GameState :=
  let deadPlayer : Option (Fin 2) :=
    if state.players0.alive = false then some 0
    else if state.players1.alive = false then some 1
    else none
  let timeout : Prop := state.roundTimer ≤ 0
  match deadPlayer with
  | some d =>
      if d = 0 then { state with players1 := incWin state.players1 }
      else { state with players0 := incWin state.players0 }
  | none =>
      if state.roundTimer ≤ 0 then
        if state.players0.hp > state.players1.hp then
          { state with players0 := incWin state.players0 }
        else if state.players1.hp > state.players0.hp then
          { state with players1 := incWin state.players1 }
        else state
      else state

/-- The frame-counter/round-timer prologue of `GameSimulation::Update`
(game_simulation.hpp:36-43); `frameNumber` is `uint32_t` so the increment
wraps at `2^32`. -/
noncomputable def advanceFrame (current : GameState) : GameState :=
  let next := { current with frameNumber := (current.frameNumber + 1) % 4294967296 }
  let t := next.roundTimer - FIXED_DT
  { next with roundTimer := if t < 0 then 0 else t }

/-- The per-player loop of `GameSimulation::Update` (game_simulation.hpp:46-49). -/
noncomputable def stepPlayers (s : GameState) (p1Input p2Input : InputState) : GameState :=
  { s with players0 := UpdatePlayer s.players0 p1Input 0,
           players1 := UpdatePlayer s.players1 p2Input 1 }

/-- Everything `GameSimulation::Update` does before `CheckWinConditions`. -/
noncomputable def preWin (current : GameState) (p1Input p2Input : InputState) : GameState :=
  CheckCollisions (UpdateProjectiles (stepPlayers (advanceFrame current) p1Input p2Input))

/-- `GameSimulation::Update` (game_simulation.hpp:35-61).  The simulation
object `sim` is passed because the member function is non-static; the body
reads none of its fields. -/
noncomputable def GameSimulation.Update (sim : GameSimulation) (current : GameState)
    (p1Input p2Input : InputState) : GameState :=
  CheckWinConditions (preWin current p1Input p2Input)

/-- Iterated stepping over a fixed sequence of input pairs. -/
noncomputable def runSeq (sim : GameSimulation) (s : GameState)
    (inputs : List (InputState × InputState)) : GameState :=
  inputs.foldl (fun st p => sim.Update st p.1 p.2) s

/-- The spawn heading computed at game_simulation.hpp:209-210: the unit
vector `(sin angleRad, 0, -cos angleRad)` of the player's facing angle. -/
noncomputable def spawnDir (player : PlayerState) : Vec3 :=
  ⟨Real.sin (radiansR player.facingAngle), 0, -Real.cos (radiansR player.facingAngle)⟩

/-- `GameSimulation::SpawnProjectile` (game_simulation.hpp:197-218). -/
noncomputable def SpawnProjectile (state : GameState) (playerIndex : Fin 2) : GameState :=
  let player := state.player playerIndex
  if player.projectileCooldown > 0 ∨ player.alive = false then state else
  let dir : Vec3 := spawnDir player
  let proj : ProjectileState :=
    { position := player.position.add (dir.smul (PLAYER_RADIUS + PROJECTILE_RADIUS + 1/10)),
      velocity := dir.smul PROJECTILE_SPEED,
      ownerID := playerIndex.val,
      damage := PROJECTILE_DAMAGE,
      active := true }
  let p' := { player with projectileCooldown := PROJECTILE_COOLDOWN }
  match playerIndex with
  | 0 => { state with projectiles := state.projectiles ++ [proj], players0 := p' }
  | 1 => { state with projectiles := state.projectiles ++ [proj], players1 := p' }

end Sim

/-- Claim C1: `GameSimulation::Update` is a function of its three arguments
only — it neither reads nor writes the engine object's mutable field
`prevThrowPressed`, two invocations on equal arguments give equal results,
and iterating it over any fixed input sequence from the same start state
gives the same final state regardless of the engine instance. -/
theorem update_deterministic :
    (∀ (sim sim' : Sim.GameSimulation) (s : Sim.GameState) (i0 i1 : Sim.InputState),
       sim.Update s i0 i1 = sim'.Update s i0 i1) ∧
    (∀ (sim sim' : Sim.GameSimulation) (s : Sim.GameState)
       (inputs : List (Sim.InputState × Sim.InputState)),
       Sim.runSeq sim s inputs = Sim.runSeq sim' s inputs) := by
  constructor
  · intro sim sim' s i0 i1
    rfl
  · intro sim sim' s inputs
    induction inputs generalizing s with
    | nil => rfl
    | cons p rest ih => simpa [Sim.runSeq, List.foldl_cons] using ih _

namespace Sim

/-- A dead player is returned unchanged by `UpdatePlayer` (the early return at
game_simulation.hpp:78). -/
theorem UpdatePlayer_dead (p : PlayerState) (i : InputState) (k : ℕ)
    (h : p.alive = false) : UpdatePlayer p i k = p := by
  unfold UpdatePlayer
  simp [h]

theorem UpdatePlayer_hp (p : PlayerState) (i : InputState) (k : ℕ) :
    (UpdatePlayer p i k).hp = p.hp := by
  unfold UpdatePlayer
  split <;> rfl

theorem UpdatePlayer_alive (p : PlayerState) (i : InputState) (k : ℕ) :
    (UpdatePlayer p i k).alive = p.alive := by
  unfold UpdatePlayer
  split <;> rfl

theorem UpdatePlayer_roundWins (p : PlayerState) (i : InputState) (k : ℕ) :
    (UpdatePlayer p i k).roundWins = p.roundWins := by
  unfold UpdatePlayer
  split <;> rfl

theorem UpdatePlayer_velocity (p : PlayerState) (i : InputState) (k : ℕ) :
    (UpdatePlayer p i k).velocity = p.velocity := by
  unfold UpdatePlayer
  split <;> rfl

theorem clampR_le (v lo hi : ℝ) (h : lo ≤ hi) : clampR v lo hi ≤ hi := by
  unfold clampR
  exact max_le h (min_le_right v hi)

theorem le_clampR (v lo hi : ℝ) : lo ≤ clampR v lo hi := le_max_left lo _

/-- An alive player's horizontal position components are clamped into the
arena square by `UpdatePlayer`. -/
theorem UpdatePlayer_position_bounds (p : PlayerState) (i : InputState) (k : ℕ)
    (h : p.alive = true) :
    -ARENA_HALF_SIZE ≤ (UpdatePlayer p i k).position.x ∧
    (UpdatePlayer p i k).position.x ≤ ARENA_HALF_SIZE ∧
    -ARENA_HALF_SIZE ≤ (UpdatePlayer p i k).position.z ∧
    (UpdatePlayer p i k).position.z ≤ ARENA_HALF_SIZE := by
  unfold UpdatePlayer
  rw [if_neg (by simp [h])]
  refine ⟨le_clampR _ _ _, clampR_le _ _ _ (by norm_num [ARENA_HALF_SIZE]),
    le_clampR _ _ _, clampR_le _ _ _ (by norm_num [ARENA_HALF_SIZE])⟩

theorem hitPlayer_roundWins (proj : ProjectileState) (t : PlayerState) :
    ((hitPlayer proj t).1).roundWins = t.roundWins := by
  simp only [hitPlayer]
  split <;> rfl

/-- A dead player 0 passes through `collideProj` untouched (the skip at
game_simulation.hpp:143). -/
theorem collideProj_dead0 (proj : ProjectileState) (p0 p1 : PlayerState)
    (h : p0.alive = false) : (collideProj proj p0 p1).2.1 = p0 := by
  unfold collideProj
  split
  · rfl
  · rw [if_neg (by simp [h])]
    split <;> rfl

theorem collideProj_dead1 (proj : ProjectileState) (p0 p1 : PlayerState)
    (h : p1.alive = false) : (collideProj proj p0 p1).2.2 = p1 := by
  unfold collideProj
  split
  · rfl
  · split
    · rfl
    · rw [if_neg (by simp [h])]

/-- `collideProj` never resurrects: player 0's alive flag can only go from
true to false. -/
theorem collideProj_alive0_mono (proj : ProjectileState) (p0 p1 : PlayerState)
    (h : ((collideProj proj p0 p1).2.1).alive = true) : p0.alive = true := by
  by_contra hc
  have hd : p0.alive = false := by
    cases hh : p0.alive
    · rfl
    · exact absurd hh hc
  rw [collideProj_dead0 proj p0 p1 hd, hd] at h
  exact Bool.false_ne_true h

theorem collideProj_alive1_mono (proj : ProjectileState) (p0 p1 : PlayerState)
    (h : ((collideProj proj p0 p1).2.2).alive = true) : p1.alive = true := by
  by_contra hc
  have hd : p1.alive = false := by
    cases hh : p1.alive
    · rfl
    · exact absurd hh hc
  rw [collideProj_dead1 proj p0 p1 hd, hd] at h
  exact Bool.false_ne_true h

theorem collideProj_roundWins (proj : ProjectileState) (p0 p1 : PlayerState) :
    ((collideProj proj p0 p1).2.1).roundWins = p0.roundWins ∧
    ((collideProj proj p0 p1).2.2).roundWins = p1.roundWins := by
  unfold collideProj
  split
  · exact ⟨rfl, rfl⟩
  · split
    · exact ⟨hitPlayer_roundWins _ _, rfl⟩
    · split
      · exact ⟨rfl, hitPlayer_roundWins _ _⟩
      · exact ⟨rfl, rfl⟩

theorem collideList_dead0 (l : List ProjectileState) (p0 p1 : PlayerState)
    (h : p0.alive = false) : (collideList l p0 p1).2.1 = p0 := by
  induction l generalizing p1 with
  | nil => rfl
  | cons proj rest ih =>
      unfold collideList
      have h0 : (collideProj proj p0 p1).2.1 = p0 := collideProj_dead0 proj p0 p1 h
      simp only [h0]
      exact ih _

theorem collideList_dead1 (l : List ProjectileState) (p0 p1 : PlayerState)
    (h : p1.alive = false) : (collideList l p0 p1).2.2 = p1 := by
  induction l generalizing p0 with
  | nil => rfl
  | cons proj rest ih =>
      unfold collideList
      have h1 : (collideProj proj p0 p1).2.2 = p1 := collideProj_dead1 proj p0 p1 h
      simp only [h1]
      exact ih _

theorem collideList_alive0_mono (l : List ProjectileState) (p0 p1 : PlayerState)
    (h : ((collideList l p0 p1).2.1).alive = true) : p0.alive = true := by
  induction l generalizing p0 p1 with
  | nil => exact h
  | cons proj rest ih =>
      unfold collideList at h
      exact collideProj_alive0_mono proj p0 p1 (ih _ _ h)

theorem collideList_alive1_mono (l : List ProjectileState) (p0 p1 : PlayerState)
    (h : ((collideList l p0 p1).2.2).alive = true) : p1.alive = true := by
  induction l generalizing p0 p1 with
  | nil => exact h
  | cons proj rest ih =>
      unfold collideList at h
      exact collideProj_alive1_mono proj p0 p1 (ih _ _ h)

theorem collideList_roundWins (l : List ProjectileState) (p0 p1 : PlayerState) :
    ((collideList l p0 p1).2.1).roundWins = p0.roundWins ∧
    ((collideList l p0 p1).2.2).roundWins = p1.roundWins := by
  induction l generalizing p0 p1 with
  | nil => exact ⟨rfl, rfl⟩
  | cons proj rest ih =>
      unfold collideList
      obtain ⟨a, b⟩ := ih (collideProj proj p0 p1).2.1 (collideProj proj p0 p1).2.2
      obtain ⟨c, d⟩ := collideProj_roundWins proj p0 p1
      exact ⟨a.trans c, b.trans d⟩

/-- `CheckWinConditions` changes nothing but a round-win counter: every other
field of each player is preserved. -/
theorem CheckWinConditions_frame (s : GameState) (j : Fin 2) :
    ((CheckWinConditions s).player j).position = (s.player j).position ∧
    ((CheckWinConditions s).player j).velocity = (s.player j).velocity ∧
    ((CheckWinConditions s).player j).facingAngle = (s.player j).facingAngle ∧
    ((CheckWinConditions s).player j).hp = (s.player j).hp ∧
    ((CheckWinConditions s).player j).projectileCooldown = (s.player j).projectileCooldown ∧
    ((CheckWinConditions s).player j).alive = (s.player j).alive := by
  unfold CheckWinConditions
  cases h0 : s.players0.alive <;> cases h1 : s.players1.alive <;>
    fin_cases j <;>
      simp only [GameState.player, h0, h1, if_true, if_false] <;>
      norm_num <;>
      (try split_ifs) <;>
      (try simp [incWin, GameState.player, h0, h1])

end Sim

namespace Sim

/-- Collisions touch only hp and the alive flag of a player record. -/
theorem hitPlayer_frame (proj : ProjectileState) (t : PlayerState) :
    ((hitPlayer proj t).1).position = t.position ∧
    ((hitPlayer proj t).1).velocity = t.velocity ∧
    ((hitPlayer proj t).1).facingAngle = t.facingAngle ∧
    ((hitPlayer proj t).1).projectileCooldown = t.projectileCooldown := by
  simp only [hitPlayer]
  split <;> exact ⟨rfl, rfl, rfl, rfl⟩

theorem collideProj_frame (proj : ProjectileState) (p0 p1 : PlayerState) :
    (((collideProj proj p0 p1).2.1).position = p0.position ∧
     ((collideProj proj p0 p1).2.1).velocity = p0.velocity ∧
     ((collideProj proj p0 p1).2.1).facingAngle = p0.facingAngle ∧
     ((collideProj proj p0 p1).2.1).projectileCooldown = p0.projectileCooldown) ∧
    (((collideProj proj p0 p1).2.2).position = p1.position ∧
     ((collideProj proj p0 p1).2.2).velocity = p1.velocity ∧
     ((collideProj proj p0 p1).2.2).facingAngle = p1.facingAngle ∧
     ((collideProj proj p0 p1).2.2).projectileCooldown = p1.projectileCooldown) := by
  unfold collideProj
  split
  · exact ⟨⟨rfl, rfl, rfl, rfl⟩, ⟨rfl, rfl, rfl, rfl⟩⟩
  · split
    · exact ⟨hitPlayer_frame _ _, rfl, rfl, rfl, rfl⟩
    · split
      · exact ⟨⟨rfl, rfl, rfl, rfl⟩, hitPlayer_frame _ _⟩
      · exact ⟨⟨rfl, rfl, rfl, rfl⟩, ⟨rfl, rfl, rfl, rfl⟩⟩

theorem collideList_frame (l : List ProjectileState) (p0 p1 : PlayerState) :
    (((collideList l p0 p1).2.1).position = p0.position ∧
     ((collideList l p0 p1).2.1).velocity = p0.velocity ∧
     ((collideList l p0 p1).2.1).facingAngle = p0.facingAngle ∧
     ((collideList l p0 p1).2.1).projectileCooldown = p0.projectileCooldown) ∧
    (((collideList l p0 p1).2.2).position = p1.position ∧
     ((collideList l p0 p1).2.2).velocity = p1.velocity ∧
     ((collideList l p0 p1).2.2).facingAngle = p1.facingAngle ∧
     ((collideList l p0 p1).2.2).projectileCooldown = p1.projectileCooldown) := by
  induction l generalizing p0 p1 with
  | nil => exact ⟨⟨rfl, rfl, rfl, rfl⟩, ⟨rfl, rfl, rfl, rfl⟩⟩
  | cons proj rest ih =>
      unfold collideList
      obtain ⟨⟨a1, a2, a3, a4⟩, ⟨b1, b2, b3, b4⟩⟩ :=
        ih (collideProj proj p0 p1).2.1 (collideProj proj p0 p1).2.2
      obtain ⟨⟨c1, c2, c3, c4⟩, ⟨d1, d2, d3, d4⟩⟩ := collideProj_frame proj p0 p1
      exact ⟨⟨a1.trans c1, a2.trans c2, a3.trans c3, a4.trans c4⟩,
             ⟨b1.trans d1, b2.trans d2, b3.trans d3, b4.trans d4⟩⟩

theorem CheckWinConditions_projectiles (s : GameState) :
    (CheckWinConditions s).projectiles = s.projectiles := by
  unfold CheckWinConditions
  split <;> (try split) <;> (try split_ifs) <;> rfl

theorem CheckWinConditions_roundTimer (s : GameState) :
    (CheckWinConditions s).roundTimer = s.roundTimer := by
  unfold CheckWinConditions
  split <;> (try split) <;> (try split_ifs) <;> rfl

/-- A dead player 0 is completely untouched by the pre-win phases of a step. -/
theorem preWin_dead0 (s : GameState) (i0 i1 : InputState)
    (h : s.players0.alive = false) : (preWin s i0 i1).players0 = s.players0 := by
  simp only [preWin, CheckCollisions, UpdateProjectiles, stepPlayers, advanceFrame]
  rw [UpdatePlayer_dead _ _ _ h]
  exact collideList_dead0 _ _ _ h

theorem preWin_dead1 (s : GameState) (i0 i1 : InputState)
    (h : s.players1.alive = false) : (preWin s i0 i1).players1 = s.players1 := by
  simp only [preWin, CheckCollisions, UpdateProjectiles, stepPlayers, advanceFrame]
  rw [UpdatePlayer_dead _ _ _ h]
  exact collideList_dead1 _ _ _ h

end Sim

/-- Claim C10: implicit frame condition on dead players.  If player `j` is not
alive in `s`, the whole step leaves that player's position, velocity, facing
angle, hp, projectile cooldown and alive flag exactly as they were (the player
does not move, takes no damage, and its cooldown stops decrementing); only
`roundWins` is outside this frame. -/
theorem deadPlayer_frame (sim : Sim.GameSimulation) (s : Sim.GameState)
    (i0 i1 : Sim.InputState) (j : Fin 2) (h : (s.player j).alive = false) :
    ((sim.Update s i0 i1).player j).position = (s.player j).position ∧
    ((sim.Update s i0 i1).player j).velocity = (s.player j).velocity ∧
    ((sim.Update s i0 i1).player j).facingAngle = (s.player j).facingAngle ∧
    ((sim.Update s i0 i1).player j).hp = (s.player j).hp ∧
    ((sim.Update s i0 i1).player j).projectileCooldown = (s.player j).projectileCooldown ∧
    ((sim.Update s i0 i1).player j).alive = (s.player j).alive := by
  have hframe := Sim.CheckWinConditions_frame (Sim.preWin s i0 i1) j
  have hpre : (Sim.preWin s i0 i1).player j = s.player j := by
    fin_cases j
    · exact Sim.preWin_dead0 s i0 i1 h
    · exact Sim.preWin_dead1 s i0 i1 h
  rw [hpre] at hframe
  obtain ⟨a, b, c, d, e, f⟩ := hframe
  exact ⟨a, b, c, d, e, f⟩

namespace Sim

/-- Sample values used by concrete witnesses and counterexamples. -/
noncomputable def v0 : Vec3 := ⟨0, 0, 0⟩

noncomputable def deadP : PlayerState :=
  { position := v0, velocity := v0, facingAngle := 0, hp := 0,
    projectileCooldown := 0, roundWins := 0, alive := false }

noncomputable def zeroInput : InputState :=
  { moveX := 0, moveY := 0, throwProjectile := false, frameNumber := 0 }

noncomputable def sim0 : GameSimulation := ⟨fun _ => false⟩

noncomputable def bothDeadState : GameState :=
  { players0 := deadP, players1 := deadP, projectiles := [], frameNumber := 0,
    roundTimer := 50, currentRound := 1 }

end Sim

/-- Witness for C10 at a concrete dead player. -/
theorem deadPlayer_frame_witness :
    (Sim.bothDeadState.player 1).alive = false ∧
    ((Sim.sim0.Update Sim.bothDeadState Sim.zeroInput Sim.zeroInput).player 1).hp
      = (Sim.bothDeadState.player 1).hp := by
  refine ⟨rfl, ?_⟩
  exact (deadPlayer_frame Sim.sim0 Sim.bothDeadState Sim.zeroInput Sim.zeroInput 1 rfl).2.2.2.1

namespace Sim

theorem preWin_eq (s : GameState) (i0 i1 : InputState) :
    preWin s i0 i1 = CheckCollisions (UpdateProjectiles (stepPlayers (advanceFrame s) i0 i1)) := rfl

theorem CheckCollisions_players0 (t : GameState) :
    (CheckCollisions t).players0 = (collideList t.projectiles t.players0 t.players1).2.1 := rfl

theorem CheckCollisions_players1 (t : GameState) :
    (CheckCollisions t).players1 = (collideList t.projectiles t.players0 t.players1).2.2 := rfl

theorem phases_players0 (s : GameState) (i0 i1 : InputState) :
    (UpdateProjectiles (stepPlayers (advanceFrame s) i0 i1)).players0
      = UpdatePlayer s.players0 i0 0 := rfl

theorem phases_players1 (s : GameState) (i0 i1 : InputState) :
    (UpdateProjectiles (stepPlayers (advanceFrame s) i0 i1)).players1
      = UpdatePlayer s.players1 i1 1 := rfl

/-- The alive flag never becomes true during a step: a player alive after
`Update` was alive before it. -/
theorem update_alive_mono (sim : GameSimulation) (s : GameState) (i0 i1 : InputState)
    (j : Fin 2) (h : ((sim.Update s i0 i1).player j).alive = true) :
    (s.player j).alive = true := by
  have hw := (CheckWinConditions_frame (preWin s i0 i1) j).2.2.2.2.2
  have hpre : ((preWin s i0 i1).player j).alive = true := by
    rw [← hw]; exact h
  fin_cases j
  · simp only [GameState.player] at hpre ⊢
    rw [preWin_eq, CheckCollisions_players0] at hpre
    have := collideList_alive0_mono _ _ _ hpre
    rw [phases_players0, UpdatePlayer_alive] at this
    exact this
  · simp only [GameState.player] at hpre ⊢
    rw [preWin_eq, CheckCollisions_players1] at hpre
    have := collideList_alive1_mono _ _ _ hpre
    rw [phases_players1, UpdatePlayer_alive] at this
    exact this

/-- The position a step produces for player `j` is the position `UpdatePlayer`
produced for it (projectile collisions and win evaluation do not move players). -/
theorem update_position_eq (sim : GameSimulation) (s : GameState) (i0 i1 : InputState)
    (j : Fin 2) :
    ((sim.Update s i0 i1).player j).position
      = (UpdatePlayer (s.player j) (if j = 0 then i0 else i1) j.val).position := by
  have hw := (CheckWinConditions_frame (preWin s i0 i1) j).1
  rw [show (sim.Update s i0 i1) = CheckWinConditions (preWin s i0 i1) from rfl, hw]
  fin_cases j
  · simp only [GameState.player]
    rw [preWin_eq, CheckCollisions_players0]
    rw [(collideList_frame _ _ _).1.1, phases_players0]
    norm_num
  · simp only [GameState.player]
    rw [preWin_eq, CheckCollisions_players1]
    rw [(collideList_frame _ _ _).2.1, phases_players1]
    norm_num

/-- Sustained maximal movement input toward the `+x` arena wall. -/
noncomputable def iRight : InputState :=
  { moveX := 1, moveY := 0, throwProjectile := false, frameNumber := 0 }

/-- Iterating `Update` a fixed number of ticks with the same pair of inputs. -/
noncomputable def stepN (sim : GameSimulation) : ℕ → GameState → InputState → InputState → GameState
  | 0, s, _, _ => s
  | n + 1, s, i0, i1 => sim.Update (stepN sim n s i0 i1) i0 i1

theorem len_unitX : Vec3.len ⟨(1 : ℝ), 0, 0⟩ = 1 := by
  rw [Vec3.len]
  norm_num

/-- Moving with full `+x` input adds exactly `PLAYER_SPEED * FIXED_DT = 1/12`
to the x position and then clamps; starting at or above the left wall the
clamp reduces to a `min` against the right wall. -/
theorem UpdatePlayer_right (p : PlayerState) (h : p.alive = true)
    (hlo : -ARENA_HALF_SIZE ≤ p.position.x) :
    (UpdatePlayer p iRight 0).position.x
      = min (p.position.x + 1/12) ARENA_HALF_SIZE := by
  unfold UpdatePlayer
  rw [if_neg (by simp [h])]
  show clampR _ _ _ = _
  rw [if_pos (by rw [show (⟨iRight.moveX, 0, iRight.moveY⟩ : Vec3) = ⟨(1 : ℝ), 0, 0⟩ from rfl,
        len_unitX]; norm_num)]
  rw [show (⟨iRight.moveX, 0, iRight.moveY⟩ : Vec3) = ⟨(1 : ℝ), 0, 0⟩ from rfl, len_unitX]
  show clampR (p.position.x + 1 / 1 * PLAYER_SPEED * FIXED_DT) _ _ = _
  rw [clampR]
  rw [max_eq_right]
  · norm_num [PLAYER_SPEED, FIXED_DT]
  · refine le_min ?_ (by norm_num [ARENA_HALF_SIZE])
    have : (0 : ℝ) ≤ 1 / 1 * PLAYER_SPEED * FIXED_DT := by
      norm_num [PLAYER_SPEED, FIXED_DT]
    linarith

/-- One tick of the sustained-right scenario: with no projectiles in flight
and player 0 alive, a step keeps the projectile list empty, keeps player 0
alive, and moves its x exactly by `min (x + 1/12) ARENA_HALF_SIZE`. -/
theorem step_right (sim : GameSimulation) (t : GameState) (i' : InputState)
    (hproj : t.projectiles = []) (halive : t.players0.alive = true)
    (hlo : -ARENA_HALF_SIZE ≤ t.players0.position.x) :
    (sim.Update t iRight i').projectiles = [] ∧
    (sim.Update t iRight i').players0.alive = true ∧
    (sim.Update t iRight i').players0.position.x
      = min (t.players0.position.x + 1/12) ARENA_HALF_SIZE := by
  have hXproj : (UpdateProjectiles (stepPlayers (advanceFrame t) iRight i')).projectiles = [] := by
    simp [UpdateProjectiles, stepPlayers, advanceFrame, hproj]
  refine ⟨?_, ?_, ?_⟩
  · rw [show (sim.Update t iRight i') = CheckWinConditions (preWin t iRight i') from rfl,
      CheckWinConditions_projectiles, preWin_eq]
    show (collideList _ _ _).1 = []
    rw [hXproj]
    rfl
  · have hw := (CheckWinConditions_frame (preWin t iRight i') 0).2.2.2.2.2
    rw [show (sim.Update t iRight i') = CheckWinConditions (preWin t iRight i') from rfl]
    show ((CheckWinConditions (preWin t iRight i')).player 0).alive = true
    rw [hw]
    show ((preWin t iRight i').players0).alive = true
    rw [preWin_eq, CheckCollisions_players0, hXproj]
    show (UpdatePlayer t.players0 iRight 0).alive = true
    rw [UpdatePlayer_alive]
    exact halive
  · have h0 := update_position_eq sim t iRight i' 0
    simp only [GameState.player, eq_self_iff_true, if_true] at h0
    rw [h0]
    exact UpdatePlayer_right t.players0 halive hlo

/-- The whole sustained-right run: after `n` ticks the x position is exactly
`min (x₀ + n/12) ARENA_HALF_SIZE`, with the scenario invariant maintained. -/
theorem stepN_right (sim : GameSimulation) (s : GameState) (i' : InputState)
    (hproj : s.projectiles = []) (halive : s.players0.alive = true)
    (hlo : -ARENA_HALF_SIZE ≤ s.players0.position.x)
    (hhi : s.players0.position.x ≤ ARENA_HALF_SIZE) :
    ∀ n : ℕ,
      (stepN sim n s iRight i').projectiles = [] ∧
      (stepN sim n s iRight i').players0.alive = true ∧
      (stepN sim n s iRight i').players0.position.x
        = min (s.players0.position.x + n * (1/12)) ARENA_HALF_SIZE := by
  intro n
  induction n with
  | zero =>
      refine ⟨hproj, halive, ?_⟩
      simp only [stepN]
      rw [Nat.cast_zero]
      norm_num
      exact hhi
  | succ n ih =>
      obtain ⟨hp, ha, hx⟩ := ih
      have hlo' : -ARENA_HALF_SIZE ≤ (stepN sim n s iRight i').players0.position.x := by
        rw [hx]
        refine le_min ?_ (by norm_num [ARENA_HALF_SIZE])
        have hn : (0 : ℝ) ≤ n * (1/12) := by positivity
        linarith
      obtain ⟨q1, q2, q3⟩ := step_right sim (stepN sim n s iRight i') i' hp ha hlo'
      refine ⟨q1, q2, ?_⟩
      show (sim.Update (stepN sim n s iRight i') iRight i').players0.position.x = _
      rw [q3, hx]
      rcases le_or_lt (s.players0.position.x + n * (1/12)) ARENA_HALF_SIZE with hc | hc
      · rw [min_eq_left hc]
        push_cast
        ring_nf
      · rw [min_eq_right (le_of_lt hc), min_eq_right, min_eq_right]
        · push_cast
          have : (0 : ℝ) ≤ 1/12 := by norm_num
          linarith
        · norm_num [ARENA_HALF_SIZE]

end Sim

/-- Claim C8: (a) after any step, every player still alive has both horizontal
position components inside `[-ARENA_HALF_SIZE, ARENA_HALF_SIZE]` (each axis is
clamped independently); (b) a player driven with sustained maximal `+x`
movement input, starting anywhere inside the arena with no projectiles in
flight, ends after at least 480 ticks with its x position exactly at
`ARENA_HALF_SIZE`, never beyond. -/
theorem arena_clamp :
    (∀ (sim : Sim.GameSimulation) (s : Sim.GameState) (i0 i1 : Sim.InputState) (j : Fin 2),
       (∀ k : Fin 2, (s.player k).alive = true →
          -Sim.ARENA_HALF_SIZE ≤ (s.player k).position.x ∧
          (s.player k).position.x ≤ Sim.ARENA_HALF_SIZE ∧
          -Sim.ARENA_HALF_SIZE ≤ (s.player k).position.z ∧
          (s.player k).position.z ≤ Sim.ARENA_HALF_SIZE) →
       ((sim.Update s i0 i1).player j).alive = true →
       -Sim.ARENA_HALF_SIZE ≤ ((sim.Update s i0 i1).player j).position.x ∧
       ((sim.Update s i0 i1).player j).position.x ≤ Sim.ARENA_HALF_SIZE ∧
       -Sim.ARENA_HALF_SIZE ≤ ((sim.Update s i0 i1).player j).position.z ∧
       ((sim.Update s i0 i1).player j).position.z ≤ Sim.ARENA_HALF_SIZE) ∧
    (∀ (sim : Sim.GameSimulation) (s : Sim.GameState) (i' : Sim.InputState) (n : ℕ),
       s.projectiles = [] → s.players0.alive = true →
       -Sim.ARENA_HALF_SIZE ≤ s.players0.position.x →
       s.players0.position.x ≤ Sim.ARENA_HALF_SIZE →
       480 ≤ n →
       (Sim.stepN sim n s Sim.iRight i').players0.position.x = Sim.ARENA_HALF_SIZE) := by
  constructor
  · intro sim s i0 i1 j hbounds halive
    have hsb := Sim.update_alive_mono sim s i0 i1 j halive
    have hpos := Sim.update_position_eq sim s i0 i1 j
    rw [hpos]
    exact Sim.UpdatePlayer_position_bounds (s.player j) _ _ hsb
  · intro sim s i' n hproj halive hlo hhi hn
    obtain ⟨-, -, hx⟩ := Sim.stepN_right sim s i' hproj halive hlo hhi n
    rw [hx, min_eq_right]
    have hcast : (480 : ℝ) ≤ (n : ℝ) := by exact_mod_cast hn
    have : (40 : ℝ) ≤ n * (1/12) := by linarith
    have hA : Sim.ARENA_HALF_SIZE = (20 : ℝ) := rfl
    rw [hA] at hlo ⊢
    linarith

namespace Sim

/-- A live player standing at the arena centre. -/
noncomputable def aliveP : PlayerState :=
  { position := v0, velocity := v0, facingAngle := 0, hp := STARTING_HP,
    projectileCooldown := 0, roundWins := 0, alive := true }

/-- A projectile-free state with both players alive at the centre. -/
noncomputable def freshState : GameState :=
  { players0 := aliveP, players1 := aliveP, projectiles := [], frameNumber := 0,
    roundTimer := ROUND_TIME, currentRound := 1 }

end Sim

/-- Witness for C8: from the centre of the arena, 480 ticks of sustained
maximal `+x` input end exactly on the right wall. -/
theorem arena_clamp_witness :
    Sim.freshState.projectiles = [] ∧
    Sim.freshState.players0.alive = true ∧
    -Sim.ARENA_HALF_SIZE ≤ Sim.freshState.players0.position.x ∧
    Sim.freshState.players0.position.x ≤ Sim.ARENA_HALF_SIZE ∧
    (Sim.stepN Sim.sim0 480 Sim.freshState Sim.iRight Sim.zeroInput).players0.position.x
      = Sim.ARENA_HALF_SIZE := by
  have hlo : -Sim.ARENA_HALF_SIZE ≤ Sim.freshState.players0.position.x := by
    norm_num [Sim.freshState, Sim.aliveP, Sim.v0, Sim.ARENA_HALF_SIZE]
  have hhi : Sim.freshState.players0.position.x ≤ Sim.ARENA_HALF_SIZE := by
    norm_num [Sim.freshState, Sim.aliveP, Sim.v0, Sim.ARENA_HALF_SIZE]
  exact ⟨rfl, rfl, hlo, hhi,
    arena_clamp.2 Sim.sim0 Sim.freshState Sim.zeroInput 480 rfl rfl hlo hhi (le_refl 480)⟩

namespace Sim

/-- The phases before win evaluation never touch a round-win counter. -/
theorem preWin_roundWins (s : GameState) (i0 i1 : InputState) :
    (preWin s i0 i1).players0.roundWins = s.players0.roundWins ∧
    (preWin s i0 i1).players1.roundWins = s.players1.roundWins := by
  constructor
  · rw [preWin_eq, CheckCollisions_players0, (collideList_roundWins _ _ _).1,
      phases_players0, UpdatePlayer_roundWins]
  · rw [preWin_eq, CheckCollisions_players1, (collideList_roundWins _ _ _).2,
      phases_players1, UpdatePlayer_roundWins]

/-- With no projectiles in flight, the pre-win phases reduce to the two
per-player updates. -/
theorem preWin_players_noProj (s : GameState) (i0 i1 : InputState)
    (h : s.projectiles = []) :
    (preWin s i0 i1).players0 = UpdatePlayer s.players0 i0 0 ∧
    (preWin s i0 i1).players1 = UpdatePlayer s.players1 i1 1 := by
  have hXproj : (UpdateProjectiles (stepPlayers (advanceFrame s) i0 i1)).projectiles = [] := by
    simp [UpdateProjectiles, stepPlayers, advanceFrame, h]
  constructor
  · rw [preWin_eq, CheckCollisions_players0, hXproj]
    rfl
  · rw [preWin_eq, CheckCollisions_players1, hXproj]
    rfl

/-- Win evaluation when player 0 is dead: the loop at
game_simulation.hpp:167-172 finds `deadPlayer = 0` first and player 1 is
awarded the round, regardless of whether player 1 is also dead. -/
theorem CheckWin_dead0 (t : GameState) (h : t.players0.alive = false) :
    CheckWinConditions t = { t with players1 := incWin t.players1 } := by
  unfold CheckWinConditions
  simp [h]

/-- Win evaluation when only player 1 is dead: player 0 is awarded the round. -/
theorem CheckWin_dead1 (t : GameState) (h0 : t.players0.alive = true)
    (h1 : t.players1.alive = false) :
    CheckWinConditions t = { t with players0 := incWin t.players0 } := by
  unfold CheckWinConditions
  simp [h0, h1]

/-- A state one tick after player 1 died: player 0 carries the single round
win awarded on the death tick, no projectiles remain. -/
noncomputable def winnerP : PlayerState :=
  { position := v0, velocity := v0, facingAngle := 0, hp := STARTING_HP,
    projectileCooldown := 0, roundWins := 1, alive := true }

/-- A live player at x = 5 with 50 hp, the victim of the negative-damage
counterexample. -/
noncomputable def victimP : PlayerState :=
  { position := ⟨5, 0, 0⟩, velocity := v0, facingAngle := 0, hp := 50,
    projectileCooldown := 0, roundWins := 0, alive := true }

/-- A stationary projectile owned by player 0 with damage -10, sitting on the
victim. -/
noncomputable def healProj : ProjectileState :=
  { position := ⟨5, 0, 0⟩, velocity := v0, ownerID := 0, damage := -10, active := true }

/-- A state satisfying the hp/alive invariant but containing a
negative-damage projectile. -/
noncomputable def sNegDmg : GameState :=
  { players0 := aliveP, players1 := victimP, projectiles := [healProj],
    frameNumber := 0, roundTimer := 50, currentRound := 1 }

noncomputable def sDead1 : GameState :=
  { players0 := winnerP, players1 := deadP, projectiles := [], frameNumber := 10,
    roundTimer := 50, currentRound := 1 }

end Sim

/-- Counterexample to C3 as stated: in a step whose collision phase ends with
both players dead, the win evaluation does not fall through to the draw
branch — it finds player 0 as the first dead player and increments player 1's
round-win counter from 0 to 1. -/
theorem bothDead_draw_counterexample :
    (Sim.preWin Sim.bothDeadState Sim.zeroInput Sim.zeroInput).players0.alive = false ∧
    (Sim.preWin Sim.bothDeadState Sim.zeroInput Sim.zeroInput).players1.alive = false ∧
    Sim.bothDeadState.players1.roundWins = 0 ∧
    (Sim.sim0.Update Sim.bothDeadState Sim.zeroInput Sim.zeroInput).players1.roundWins = 1 := by
  have h0 : (Sim.preWin Sim.bothDeadState Sim.zeroInput Sim.zeroInput).players0 = Sim.deadP :=
    Sim.preWin_dead0 _ _ _ rfl
  have h1 : (Sim.preWin Sim.bothDeadState Sim.zeroInput Sim.zeroInput).players1 = Sim.deadP :=
    Sim.preWin_dead1 _ _ _ rfl
  refine ⟨by rw [h0]; rfl, by rw [h1]; rfl, rfl, ?_⟩
  show (Sim.CheckWinConditions (Sim.preWin Sim.bothDeadState Sim.zeroInput Sim.zeroInput)).players1.roundWins = 1
  rw [Sim.CheckWin_dead0 _ (by rw [h0]; rfl)]
  show (Sim.incWin (Sim.preWin Sim.bothDeadState Sim.zeroInput Sim.zeroInput).players1).roundWins = 1
  rw [Sim.incWin, h1]
  rfl

/-- Claim C3 amended: when the collision phase of a step leaves both players
dead, win evaluation does not treat the tick as a draw; it finds player 0 as
the first dead player and increments player 1's round-win counter by exactly
one (mod 256), leaving player 0's counter unchanged. -/
theorem bothDead_awards_player1 (sim : Sim.GameSimulation) (s : Sim.GameState)
    (i0 i1 : Sim.InputState)
    (h0 : (Sim.preWin s i0 i1).players0.alive = false)
    (h1 : (Sim.preWin s i0 i1).players1.alive = false) :
    (sim.Update s i0 i1).players1.roundWins = (s.players1.roundWins + 1) % 256 ∧
    (sim.Update s i0 i1).players0.roundWins = s.players0.roundWins := by
  have hupd : sim.Update s i0 i1
      = { Sim.preWin s i0 i1 with
            players1 := Sim.incWin (Sim.preWin s i0 i1).players1 } := by
    show Sim.CheckWinConditions (Sim.preWin s i0 i1) = _
    exact Sim.CheckWin_dead0 _ h0
  rw [hupd]
  constructor
  · show (Sim.incWin (Sim.preWin s i0 i1).players1).roundWins = _
    rw [Sim.incWin, (Sim.preWin_roundWins s i0 i1).2]
  · exact (Sim.preWin_roundWins s i0 i1).1

/-- Witness for the amended C3 at a concrete both-players-dead state. -/
theorem bothDead_awards_player1_witness :
    (Sim.preWin Sim.bothDeadState Sim.zeroInput Sim.zeroInput).players0.alive = false ∧
    (Sim.preWin Sim.bothDeadState Sim.zeroInput Sim.zeroInput).players1.alive = false ∧
    (Sim.sim0.Update Sim.bothDeadState Sim.zeroInput Sim.zeroInput).players1.roundWins
      = (Sim.bothDeadState.players1.roundWins + 1) % 256 := by
  have h0 : (Sim.preWin Sim.bothDeadState Sim.zeroInput Sim.zeroInput).players0.alive = false := by
    rw [Sim.preWin_dead0 _ _ _ rfl]
    rfl
  have h1 : (Sim.preWin Sim.bothDeadState Sim.zeroInput Sim.zeroInput).players1.alive = false := by
    rw [Sim.preWin_dead1 _ _ _ rfl]
    rfl
  exact ⟨h0, h1,
    (bothDead_awards_player1 Sim.sim0 Sim.bothDeadState Sim.zeroInput Sim.zeroInput h0 h1).1⟩

/-- Counterexample to C5 as stated: on the state resulting from the death
tick (player 1 dead, player 0 alive with one round win), a further `Update`
within the same round increments player 0's round-win counter again, from 1
to 2, instead of leaving it unchanged. -/
theorem roundWin_once_counterexample :
    Sim.sDead1.players1.alive = false ∧
    Sim.sDead1.players0.alive = true ∧
    Sim.sDead1.players0.roundWins = 1 ∧
    (Sim.sim0.Update Sim.sDead1 Sim.zeroInput Sim.zeroInput).players0.roundWins = 2 := by
  obtain ⟨hq0, hq1⟩ := Sim.preWin_players_noProj Sim.sDead1 Sim.zeroInput Sim.zeroInput rfl
  have h0 : (Sim.preWin Sim.sDead1 Sim.zeroInput Sim.zeroInput).players0.alive = true := by
    rw [hq0, Sim.UpdatePlayer_alive]; rfl
  have h1 : (Sim.preWin Sim.sDead1 Sim.zeroInput Sim.zeroInput).players1.alive = false := by
    rw [Sim.preWin_dead1 _ _ _ rfl]
    rfl
  refine ⟨rfl, rfl, rfl, ?_⟩
  show (Sim.CheckWinConditions (Sim.preWin Sim.sDead1 Sim.zeroInput Sim.zeroInput)).players0.roundWins = 2
  rw [Sim.CheckWin_dead1 _ h0 h1]
  show (Sim.incWin (Sim.preWin Sim.sDead1 Sim.zeroInput Sim.zeroInput).players0).roundWins = 2
  rw [Sim.incWin, hq0, Sim.UpdatePlayer_roundWins]
  rfl

/-- Claim C5 amended: on every tick whose collision phase ends with player 1
dead and player 0 alive — in particular the tick on which player 1's hp
reaches 0 — player 0's round-win counter increases by exactly one (mod 256)
and player 1's is unchanged; and since a dead player stays dead through the
pre-win phases, each further `Update` in the same round (no round reset)
increments player 0's counter again rather than leaving it unchanged. -/
theorem roundWin_per_tick (sim : Sim.GameSimulation) (s : Sim.GameState)
    (i0 i1 : Sim.InputState) :
    ((Sim.preWin s i0 i1).players0.alive = true →
     (Sim.preWin s i0 i1).players1.alive = false →
     (sim.Update s i0 i1).players0.roundWins = (s.players0.roundWins + 1) % 256 ∧
     (sim.Update s i0 i1).players1.roundWins = s.players1.roundWins) ∧
    (s.players1.alive = false → (Sim.preWin s i0 i1).players1.alive = false) := by
  constructor
  · intro h0 h1
    have hupd : sim.Update s i0 i1
        = { Sim.preWin s i0 i1 with
              players0 := Sim.incWin (Sim.preWin s i0 i1).players0 } := by
      show Sim.CheckWinConditions (Sim.preWin s i0 i1) = _
      exact Sim.CheckWin_dead1 _ h0 h1
    rw [hupd]
    constructor
    · show (Sim.incWin (Sim.preWin s i0 i1).players0).roundWins = _
      rw [Sim.incWin, (Sim.preWin_roundWins s i0 i1).1]
    · exact (Sim.preWin_roundWins s i0 i1).2
  · intro h
    rw [Sim.preWin_dead1 _ _ _ h]
    exact h

/-- Witness for the amended C5 at the concrete post-death-tick state. -/
theorem roundWin_per_tick_witness :
    (Sim.preWin Sim.sDead1 Sim.zeroInput Sim.zeroInput).players0.alive = true ∧
    (Sim.preWin Sim.sDead1 Sim.zeroInput Sim.zeroInput).players1.alive = false ∧
    Sim.sDead1.players1.alive = false ∧
    (Sim.sim0.Update Sim.sDead1 Sim.zeroInput Sim.zeroInput).players0.roundWins
      = (Sim.sDead1.players0.roundWins + 1) % 256 := by
  have h0 : (Sim.preWin Sim.sDead1 Sim.zeroInput Sim.zeroInput).players0.alive = true := by
    rw [(Sim.preWin_players_noProj Sim.sDead1 Sim.zeroInput Sim.zeroInput rfl).1,
      Sim.UpdatePlayer_alive]
    rfl
  have h1 := (roundWin_per_tick Sim.sim0 Sim.sDead1 Sim.zeroInput Sim.zeroInput).2 rfl
  exact ⟨h0, h1, rfl,
    ((roundWin_per_tick Sim.sim0 Sim.sDead1 Sim.zeroInput Sim.zeroInput).1 h0 h1).1⟩

namespace Sim

/-- The per-player step invariant of the data model: hp is non-negative and
the alive flag tracks strict positivity of hp. -/
def PlayerInv (p : PlayerState) : Prop :=
  0 ≤ p.hp ∧ (p.alive = true ↔ 0 < p.hp)

/-- A hit on a live player keeps the invariant: hp is clamped at 0 and the
alive flag is cleared exactly when hp reaches 0. -/
theorem hitPlayer_inv (proj : ProjectileState) (t : PlayerState)
    (ht : t.alive = true) : PlayerInv ((hitPlayer proj t).1) := by
  simp only [hitPlayer]
  split
  · exact ⟨le_refl 0, by simp⟩
  · rename_i hgt
    push_neg at hgt
    exact ⟨le_of_lt hgt, by simp [ht, hgt]⟩

/-- A hit with non-negative damage never raises hp, and the result stays
non-negative. -/
theorem hitPlayer_mono (proj : ProjectileState) (t : PlayerState)
    (h0 : 0 ≤ t.hp) (hd : 0 ≤ proj.damage) :
    ((hitPlayer proj t).1).hp ≤ t.hp ∧ 0 ≤ ((hitPlayer proj t).1).hp := by
  simp only [hitPlayer]
  split
  · exact ⟨h0, le_refl 0⟩
  · rename_i hgt
    push_neg at hgt
    constructor
    · show t.hp - proj.damage ≤ t.hp
      linarith
    · exact le_of_lt hgt

theorem collideProj_inv (proj : ProjectileState) (p0 p1 : PlayerState)
    (h0 : PlayerInv p0) (h1 : PlayerInv p1) (hd : 0 ≤ proj.damage) :
    PlayerInv ((collideProj proj p0 p1).2.1) ∧
    PlayerInv ((collideProj proj p0 p1).2.2) ∧
    ((collideProj proj p0 p1).2.1).hp ≤ p0.hp ∧
    ((collideProj proj p0 p1).2.2).hp ≤ p1.hp := by
  unfold collideProj
  split
  · exact ⟨h0, h1, le_refl _, le_refl _⟩
  · split
    · rename_i hc
      exact ⟨hitPlayer_inv proj p0 hc.2.1, h1,
        (hitPlayer_mono proj p0 h0.1 hd).1, le_refl _⟩
    · split
      · rename_i hc
        exact ⟨h0, hitPlayer_inv proj p1 hc.2.1,
          le_refl _, (hitPlayer_mono proj p1 h1.1 hd).1⟩
      · exact ⟨h0, h1, le_refl _, le_refl _⟩

theorem collideList_inv (l : List ProjectileState) (p0 p1 : PlayerState)
    (h0 : PlayerInv p0) (h1 : PlayerInv p1) (hd : ∀ p ∈ l, 0 ≤ p.damage) :
    PlayerInv ((collideList l p0 p1).2.1) ∧
    PlayerInv ((collideList l p0 p1).2.2) ∧
    ((collideList l p0 p1).2.1).hp ≤ p0.hp ∧
    ((collideList l p0 p1).2.2).hp ≤ p1.hp := by
  induction l generalizing p0 p1 with
  | nil => exact ⟨h0, h1, le_refl _, le_refl _⟩
  | cons proj rest ih =>
      have hdp : 0 ≤ proj.damage := hd proj (List.mem_cons_self proj rest)
      obtain ⟨q0, q1, m0, m1⟩ := collideProj_inv proj p0 p1 h0 h1 hdp
      obtain ⟨r0, r1, n0, n1⟩ :=
        ih (collideProj proj p0 p1).2.1 (collideProj proj p0 p1).2.2 q0 q1
          (fun p hp => hd p (List.mem_cons_of_mem proj hp))
      exact ⟨r0, r1, le_trans n0 m0, le_trans n1 m1⟩

/-- Moving a projectile does not change its damage. -/
theorem stepProjectile_damage (p : ProjectileState) :
    (stepProjectile p).damage = p.damage := by
  simp only [stepProjectile]
  split
  · rfl
  · split <;> rfl

/-- The post-move projectile list carries the same damages as the input. -/
theorem UpdateProjectiles_damage (s : GameState)
    (hd : ∀ p ∈ s.projectiles, 0 ≤ p.damage) :
    ∀ q ∈ (UpdateProjectiles s).projectiles, 0 ≤ q.damage := by
  intro q hq
  simp only [UpdateProjectiles, List.mem_filter, List.mem_map] at hq
  obtain ⟨⟨p, hp, rfl⟩, -⟩ := hq
  rw [stepProjectile_damage]
  exact hd p hp

end Sim

/-- Counterexample to C4 as stated: the claim quantifies over every GameState
whose players satisfy the hp/alive invariant, but a state containing a
projectile with negative damage makes hp increase across a step (50 to 60
here): the code subtracts the (unvalidated) damage field. -/
theorem hp_monotone_counterexample :
    (∀ j : Fin 2, 0 ≤ (Sim.sNegDmg.player j).hp ∧
        ((Sim.sNegDmg.player j).alive = true ↔ 0 < (Sim.sNegDmg.player j).hp)) ∧
    Sim.sNegDmg.players1.hp = 50 ∧
    (Sim.sim0.Update Sim.sNegDmg Sim.zeroInput Sim.zeroInput).players1.hp = 60 := by
  refine ⟨?_, rfl, ?_⟩
  · intro j
    fin_cases j <;>
      norm_num [Sim.GameState.player, Sim.sNegDmg, Sim.aliveP, Sim.victimP, Sim.STARTING_HP]
  · have hw := (Sim.CheckWinConditions_frame
      (Sim.preWin Sim.sNegDmg Sim.zeroInput Sim.zeroInput) 1).2.2.2.1
    have e1 : (Sim.sim0.Update Sim.sNegDmg Sim.zeroInput Sim.zeroInput).players1.hp
        = ((Sim.CheckWinConditions (Sim.preWin Sim.sNegDmg Sim.zeroInput Sim.zeroInput)).player 1).hp := rfl
    rw [e1, hw]
    show (Sim.preWin Sim.sNegDmg Sim.zeroInput Sim.zeroInput).players1.hp = 60
    norm_num [Sim.preWin, Sim.CheckCollisions, Sim.UpdateProjectiles, Sim.stepPlayers,
      Sim.advanceFrame, Sim.UpdatePlayer, Sim.stepProjectile, Sim.collideList,
      Sim.collideProj, Sim.collisionHit, Sim.hitPlayer, Sim.Vec3.add, Sim.Vec3.smul,
      Sim.Vec3.sub, Sim.Vec3.divs, Sim.Vec3.len, Sim.clampR, Sim.sNegDmg, Sim.aliveP,
      Sim.victimP, Sim.healProj, Sim.v0, Sim.zeroInput, Sim.FIXED_DT, Sim.ARENA_HALF_SIZE,
      Sim.PROJECTILE_RADIUS, Sim.PLAYER_RADIUS, Sim.PLAYER_SPEED, Sim.STARTING_HP,
      min_def, max_def, Real.sqrt_zero]

/-- Claim C4 amended: for every GameState whose players satisfy hp ≥ 0 and
alive == (hp > 0) and all of whose projectiles carry non-negative damage
(always true for projectiles the game itself spawns), a step preserves the
invariant and hp never increases; hp is clamped to 0 on death, never
negative. -/
theorem hp_alive_invariant (sim : Sim.GameSimulation) (s : Sim.GameState)
    (i0 i1 : Sim.InputState)
    (hinv : ∀ j : Fin 2, 0 ≤ (s.player j).hp ∧
        ((s.player j).alive = true ↔ 0 < (s.player j).hp))
    (hdmg : ∀ p ∈ s.projectiles, 0 ≤ p.damage) :
    ∀ j : Fin 2,
      0 ≤ ((sim.Update s i0 i1).player j).hp ∧
      (((sim.Update s i0 i1).player j).alive = true ↔
        0 < ((sim.Update s i0 i1).player j).hp) ∧
      ((sim.Update s i0 i1).player j).hp ≤ (s.player j).hp := by
  have hdX : ∀ q ∈ (Sim.UpdateProjectiles
      (Sim.stepPlayers (Sim.advanceFrame s) i0 i1)).projectiles, 0 ≤ q.damage := by
    refine Sim.UpdateProjectiles_damage _ ?_
    exact hdmg
  have hp0 : Sim.PlayerInv (Sim.UpdatePlayer s.players0 i0 0) := by
    constructor
    · rw [Sim.UpdatePlayer_hp]; exact (hinv 0).1
    · rw [Sim.UpdatePlayer_hp, Sim.UpdatePlayer_alive]; exact (hinv 0).2
  have hp1 : Sim.PlayerInv (Sim.UpdatePlayer s.players1 i1 1) := by
    constructor
    · rw [Sim.UpdatePlayer_hp]; exact (hinv 1).1
    · rw [Sim.UpdatePlayer_hp, Sim.UpdatePlayer_alive]; exact (hinv 1).2
  have hcoll := Sim.collideList_inv
    (Sim.UpdateProjectiles (Sim.stepPlayers (Sim.advanceFrame s) i0 i1)).projectiles
    (Sim.UpdatePlayer s.players0 i0 0) (Sim.UpdatePlayer s.players1 i1 1) hp0 hp1 hdX
  have e0 : (Sim.preWin s i0 i1).players0
      = (Sim.collideList
          (Sim.UpdateProjectiles (Sim.stepPlayers (Sim.advanceFrame s) i0 i1)).projectiles
          (Sim.UpdatePlayer s.players0 i0 0) (Sim.UpdatePlayer s.players1 i1 1)).2.1 := rfl
  have e1 : (Sim.preWin s i0 i1).players1
      = (Sim.collideList
          (Sim.UpdateProjectiles (Sim.stepPlayers (Sim.advanceFrame s) i0 i1)).projectiles
          (Sim.UpdatePlayer s.players0 i0 0) (Sim.UpdatePlayer s.players1 i1 1)).2.2 := rfl
  intro j
  fin_cases j
  · show 0 ≤ (sim.Update s i0 i1).players0.hp ∧
      ((sim.Update s i0 i1).players0.alive = true ↔ 0 < (sim.Update s i0 i1).players0.hp) ∧
      (sim.Update s i0 i1).players0.hp ≤ s.players0.hp
    have hhp : (sim.Update s i0 i1).players0.hp = (Sim.preWin s i0 i1).players0.hp :=
      (Sim.CheckWinConditions_frame (Sim.preWin s i0 i1) 0).2.2.2.1
    have hal : (sim.Update s i0 i1).players0.alive = (Sim.preWin s i0 i1).players0.alive :=
      (Sim.CheckWinConditions_frame (Sim.preWin s i0 i1) 0).2.2.2.2.2
    have hinv' : Sim.PlayerInv (Sim.preWin s i0 i1).players0 := by
      rw [e0]; exact hcoll.1
    have hmono : (Sim.preWin s i0 i1).players0.hp ≤ (Sim.UpdatePlayer s.players0 i0 0).hp := by
      rw [e0]; exact hcoll.2.2.1
    refine ⟨by rw [hhp]; exact hinv'.1, by rw [hhp, hal]; exact hinv'.2, ?_⟩
    rw [hhp]
    calc (Sim.preWin s i0 i1).players0.hp
        ≤ (Sim.UpdatePlayer s.players0 i0 0).hp := hmono
      _ = s.players0.hp := Sim.UpdatePlayer_hp _ _ _
  · show 0 ≤ (sim.Update s i0 i1).players1.hp ∧
      ((sim.Update s i0 i1).players1.alive = true ↔ 0 < (sim.Update s i0 i1).players1.hp) ∧
      (sim.Update s i0 i1).players1.hp ≤ s.players1.hp
    have hhp : (sim.Update s i0 i1).players1.hp = (Sim.preWin s i0 i1).players1.hp :=
      (Sim.CheckWinConditions_frame (Sim.preWin s i0 i1) 1).2.2.2.1
    have hal : (sim.Update s i0 i1).players1.alive = (Sim.preWin s i0 i1).players1.alive :=
      (Sim.CheckWinConditions_frame (Sim.preWin s i0 i1) 1).2.2.2.2.2
    have hinv' : Sim.PlayerInv (Sim.preWin s i0 i1).players1 := by
      rw [e1]; exact hcoll.2.1
    have hmono : (Sim.preWin s i0 i1).players1.hp ≤ (Sim.UpdatePlayer s.players1 i1 1).hp := by
      rw [e1]; exact hcoll.2.2.2
    refine ⟨by rw [hhp]; exact hinv'.1, by rw [hhp, hal]; exact hinv'.2, ?_⟩
    rw [hhp]
    calc (Sim.preWin s i0 i1).players1.hp
        ≤ (Sim.UpdatePlayer s.players1 i1 1).hp := hmono
      _ = s.players1.hp := Sim.UpdatePlayer_hp _ _ _

/-- Witness for the amended C4 at a concrete projectile-free fresh state. -/
theorem hp_alive_invariant_witness :
    (∀ j : Fin 2, 0 ≤ (Sim.freshState.player j).hp ∧
        ((Sim.freshState.player j).alive = true ↔ 0 < (Sim.freshState.player j).hp)) ∧
    (∀ p ∈ Sim.freshState.projectiles, 0 ≤ p.damage) ∧
    ((Sim.sim0.Update Sim.freshState Sim.zeroInput Sim.zeroInput).player 0).hp
      ≤ (Sim.freshState.player 0).hp := by
  have hinv : ∀ j : Fin 2, 0 ≤ (Sim.freshState.player j).hp ∧
      ((Sim.freshState.player j).alive = true ↔ 0 < (Sim.freshState.player j).hp) := by
    intro j
    fin_cases j <;>
      norm_num [Sim.GameState.player, Sim.freshState, Sim.aliveP, Sim.STARTING_HP]
  have hdmg : ∀ p ∈ Sim.freshState.projectiles, 0 ≤ p.damage := by
    intro p hp
    simp [Sim.freshState] at hp
  exact ⟨hinv, hdmg,
    (hp_alive_invariant Sim.sim0 Sim.freshState Sim.zeroInput Sim.zeroInput hinv hdmg 0).2.2⟩

namespace Sim

/-- The refusal branch of `SpawnProjectile` (game_simulation.hpp:200-202). -/
theorem SpawnProjectile_refuse (t : GameState) (i : Fin 2)
    (h : (t.player i).projectileCooldown > 0 ∨ (t.player i).alive = false) :
    SpawnProjectile t i = t := by
  unfold SpawnProjectile
  rw [if_pos h]

/-- The projectile record that a successful spawn for player `i` appends. -/
noncomputable def spawnedProj (t : GameState) (i : Fin 2) : ProjectileState :=
  { position := (t.player i).position.add
      ((spawnDir (t.player i)).smul (PLAYER_RADIUS + PROJECTILE_RADIUS + 1/10)),
    velocity := (spawnDir (t.player i)).smul PROJECTILE_SPEED,
    ownerID := i.val,
    damage := PROJECTILE_DAMAGE,
    active := true }

theorem SpawnProjectile_success (t : GameState) (i : Fin 2)
    (h : ¬((t.player i).projectileCooldown > 0 ∨ (t.player i).alive = false)) :
    (SpawnProjectile t i).projectiles = t.projectiles ++ [spawnedProj t i] ∧
    ((SpawnProjectile t i).player i).projectileCooldown = PROJECTILE_COOLDOWN := by
  unfold SpawnProjectile
  rw [if_neg h]
  fin_cases i <;> exact ⟨rfl, rfl⟩

/-- The spawn heading is a unit vector, so scaling it by `c ≥ 0` yields a
vector of norm exactly `c`. -/
theorem spawnDir_smul_len (p : PlayerState) (c : ℝ) (hc : 0 ≤ c) :
    ((spawnDir p).smul c).len = c := by
  unfold spawnDir Vec3.smul Vec3.len
  have hs : Real.sin (radiansR p.facingAngle) ^ 2 + Real.cos (radiansR p.facingAngle) ^ 2 = 1 :=
    Real.sin_sq_add_cos_sq _
  have harg :
      (Real.sin (radiansR p.facingAngle) * c) ^ 2 + ((0 : ℝ) * c) ^ 2 +
        (-Real.cos (radiansR p.facingAngle) * c) ^ 2 = c ^ 2 := by
    nlinarith [hs]
  rw [harg]
  exact Real.sqrt_sq hc

end Sim

/-- Componentwise extensionality for the vector embedding. -/
theorem Sim.Vec3.ext3 (a b : Sim.Vec3) (hx : a.x = b.x) (hy : a.y = b.y)
    (hz : a.z = b.z) : a = b := by
  cases a
  cases b
  simp_all

/-- Claim C7: `SpawnProjectile` leaves the state unchanged when the player is
dead or its cooldown is positive; otherwise it appends exactly one projectile
owned by that player with the fixed damage, positioned
`PLAYER_RADIUS + PROJECTILE_RADIUS + 0.1` forward of the player along the
facing heading, with velocity of norm `PROJECTILE_SPEED` along the same
heading, and resets the player's cooldown to `PROJECTILE_COOLDOWN`; hence two
consecutive calls from a ready state add exactly one projectile. -/
theorem spawnProjectile_spec (s : Sim.GameState) (i : Fin 2) :
    ((s.player i).projectileCooldown > 0 ∨ (s.player i).alive = false →
       Sim.SpawnProjectile s i = s) ∧
    (¬((s.player i).projectileCooldown > 0 ∨ (s.player i).alive = false) →
       (Sim.SpawnProjectile s i).projectiles
           = s.projectiles ++ [Sim.spawnedProj s i] ∧
       (Sim.spawnedProj s i).ownerID = i.val ∧
       (Sim.spawnedProj s i).damage = Sim.PROJECTILE_DAMAGE ∧
       (Sim.spawnedProj s i).active = true ∧
       ((Sim.spawnedProj s i).position.sub (s.player i).position).len
           = Sim.PLAYER_RADIUS + Sim.PROJECTILE_RADIUS + 1/10 ∧
       (Sim.spawnedProj s i).velocity.len = Sim.PROJECTILE_SPEED ∧
       (Sim.spawnedProj s i).velocity
           = ((Sim.spawnedProj s i).position.sub (s.player i).position).smul
               (Sim.PROJECTILE_SPEED / (Sim.PLAYER_RADIUS + Sim.PROJECTILE_RADIUS + 1/10)) ∧
       ((Sim.SpawnProjectile s i).player i).projectileCooldown = Sim.PROJECTILE_COOLDOWN) ∧
    (¬((s.player i).projectileCooldown > 0 ∨ (s.player i).alive = false) →
       (Sim.SpawnProjectile (Sim.SpawnProjectile s i) i).projectiles.length
           = s.projectiles.length + 1) := by
  have hoff : (Sim.spawnedProj s i).position.sub (s.player i).position
      = (Sim.spawnDir (s.player i)).smul
          (Sim.PLAYER_RADIUS + Sim.PROJECTILE_RADIUS + 1/10) := by
    apply Sim.Vec3.ext3 <;>
      simp [Sim.spawnedProj, Sim.Vec3.add, Sim.Vec3.sub, Sim.Vec3.smul]
  refine ⟨Sim.SpawnProjectile_refuse s i, ?_, ?_⟩
  · intro h
    obtain ⟨happ, hcd⟩ := Sim.SpawnProjectile_success s i h
    refine ⟨happ, rfl, rfl, rfl, ?_, ?_, ?_, hcd⟩
    · rw [hoff]
      exact Sim.spawnDir_smul_len _ _
        (by norm_num [Sim.PLAYER_RADIUS, Sim.PROJECTILE_RADIUS])
    · show ((Sim.spawnDir (s.player i)).smul Sim.PROJECTILE_SPEED).len = _
      exact Sim.spawnDir_smul_len _ _ (by norm_num [Sim.PROJECTILE_SPEED])
    · rw [hoff]
      apply Sim.Vec3.ext3 <;>
        norm_num [Sim.spawnedProj, Sim.Vec3.smul, Sim.PLAYER_RADIUS,
          Sim.PROJECTILE_RADIUS, Sim.PROJECTILE_SPEED, Sim.spawnDir] <;>
        ring
  · intro h
    obtain ⟨happ, hcd⟩ := Sim.SpawnProjectile_success s i h
    have hrefuse : Sim.SpawnProjectile (Sim.SpawnProjectile s i) i
        = Sim.SpawnProjectile s i :=
      Sim.SpawnProjectile_refuse _ i
        (Or.inl (by rw [hcd]; norm_num [Sim.PROJECTILE_COOLDOWN]))
    rw [hrefuse, happ]
    simp

/-- Witness for C7 at a concrete alive, zero-cooldown player. -/
theorem spawnProjectile_spec_witness :
    ¬((Sim.freshState.player 0).projectileCooldown > 0 ∨
        (Sim.freshState.player 0).alive = false) ∧
    (Sim.SpawnProjectile Sim.freshState 0).projectiles
        = Sim.freshState.projectiles ++ [Sim.spawnedProj Sim.freshState 0] ∧
    (Sim.SpawnProjectile (Sim.SpawnProjectile Sim.freshState 0) 0).projectiles.length
        = Sim.freshState.projectiles.length + 1 := by
  have hready : ¬((Sim.freshState.player 0).projectileCooldown > 0 ∨
      (Sim.freshState.player 0).alive = false) := by
    norm_num [Sim.GameState.player, Sim.freshState, Sim.aliveP]
  exact ⟨hready, ((spawnProjectile_spec Sim.freshState 0).2.1 hready).1,
    (spawnProjectile_spec Sim.freshState 0).2.2 hready⟩

namespace Wire

/-- Little-endian byte image of a 32-bit scalar field (the four bytes
`memcpy` copies for a `float`/`uint32_t`; the field is modelled by its bit
pattern, a natural number below `2^32`). -/
def toBytes4 (w : ℕ) : List ℕ :=
  [w % 256, w / 256 % 256, w / 65536 % 256, w / 16777216 % 256]

/-- Little-endian byte image of a 16-bit field. -/
def toBytes2 (w : ℕ) : List ℕ := [w % 256, w / 256 % 256]

/-- Reassemble a 32-bit word from the first four bytes of a buffer.  A buffer
shorter than four bytes means the source `memcpy` would read out of bounds;
the model reads the missing bytes as zero (never exercised by the theorems on
well-formed buffers). -/
def fromBytes4 : List ℕ → ℕ
  | b0 :: b1 :: b2 :: b3 :: _ => b0 + 256 * b1 + 65536 * b2 + 16777216 * b3
  | [b0, b1, b2] => b0 + 256 * b1 + 65536 * b2
  | [b0, b1] => b0 + 256 * b1
  | [b0] => b0
  | [] => 0

/-- Reassemble a 16-bit word from the first two bytes of a buffer. -/
def fromBytes2 : List ℕ → ℕ
  | b0 :: b1 :: _ => b0 + 256 * b1
  | [b0] => b0
  | [] => 0

theorem fromBytes4_toBytes4 (w : ℕ) (r : List ℕ) (hw : w < 4294967296) :
    fromBytes4 (toBytes4 w ++ r) = w := by
  show w % 256 + 256 * (w / 256 % 256) + 65536 * (w / 65536 % 256)
      + 16777216 * (w / 16777216 % 256) = w
  omega

theorem fromBytes2_toBytes2 (w : ℕ) (r : List ℕ) (hw : w < 65536) :
    fromBytes2 (toBytes2 w ++ r) = w := by
  show w % 256 + 256 * (w / 256 % 256) = w
  omega

theorem drop4_toBytes4 (w : ℕ) (r : List ℕ) : (toBytes4 w ++ r).drop 4 = r := rfl

theorem drop2_toBytes2 (w : ℕ) (r : List ℕ) : (toBytes2 w ++ r).drop 2 = r := rfl

/-- Shallow embedding of `struct InputState` at wire level: the two float
fields are 32-bit patterns. -/
structure InputState where
  moveX : ℕ
  moveY : ℕ
  throwProjectile : Bool
  frameNumber : ℕ

/-- The defaults of a freshly constructed `InputState` (input_state.hpp:16-23;
the zero float has bit pattern zero). -/
def inputInit : InputState :=
  { moveX := 0, moveY := 0, throwProjectile := false, frameNumber := 0 }

/-- `InputState::Serialize` (input_state.hpp:26-44): moveX, moveY, a packed
buttons byte with bit 0 = throwProjectile, then frameNumber. -/
def InputState.serialize (i : InputState) : List ℕ :=
  toBytes4 i.moveX ++ toBytes4 i.moveY ++
    [if i.throwProjectile then 1 else 0] ++ toBytes4 i.frameNumber

/-- `InputState::Deserialize` (input_state.hpp:47-71): each field is read only
if enough bytes remain at the running offset, otherwise the field keeps the
value it had in `self`. -/
def InputState.deserialize (self : InputState) (b : List ℕ) : InputState :=
  let mX := if 0 + 4 ≤ b.length then fromBytes4 (b.drop 0) else self.moveX
  let o1 := if 0 + 4 ≤ b.length then 0 + 4 else 0
  let mY := if o1 + 4 ≤ b.length then fromBytes4 (b.drop o1) else self.moveY
  let o2 := if o1 + 4 ≤ b.length then o1 + 4 else o1
  let th := if o2 + 1 ≤ b.length then ((b.drop o2).getD 0 0) % 2 != 0
            else self.throwProjectile
  let o3 := if o2 + 1 ≤ b.length then o2 + 1 else o2
  let fr := if o3 + 4 ≤ b.length then fromBytes4 (b.drop o3) else self.frameNumber
  { moveX := mX, moveY := mY, throwProjectile := th, frameNumber := fr }

/-- Field ranges of a well-formed wire `InputState`. -/
def InputState.WF (i : InputState) : Prop :=
  i.moveX < 4294967296 ∧ i.moveY < 4294967296 ∧ i.frameNumber < 4294967296

end Wire

/-- Claim C6: `InputState::Deserialize` reads moveX, moveY, buttons and
frameNumber in that order, each only when enough bytes remain at the running
offset, and every field not read keeps the value the object already had — the
defaults 0, 0, false, 0 on a freshly constructed InputState — so a truncated
INPUT payload yields zeroed movement rather than an error.  The buttons byte
is taken at offset 8 on full buffers, and on buffers too short for the float
fields the running offset makes it fall at offset 4 or 0. -/
theorem input_deserialize_truncation (self : Wire.InputState) (b : List ℕ) :
    (Wire.InputState.deserialize self b).moveX
        = (if 4 ≤ b.length then Wire.fromBytes4 b else self.moveX) ∧
    (Wire.InputState.deserialize self b).moveY
        = (if 8 ≤ b.length then Wire.fromBytes4 (b.drop 4) else self.moveY) ∧
    (Wire.InputState.deserialize self b).throwProjectile
        = (if 9 ≤ b.length then ((b.drop 8).getD 0 0) % 2 != 0
           else if 5 ≤ b.length ∧ b.length ≤ 7 then ((b.drop 4).getD 0 0) % 2 != 0
           else if 1 ≤ b.length ∧ b.length ≤ 3 then (b.getD 0 0) % 2 != 0
           else self.throwProjectile) ∧
    (Wire.InputState.deserialize self b).frameNumber
        = (if 13 ≤ b.length then Wire.fromBytes4 (b.drop 9) else self.frameNumber) := by
  refine ⟨?_, ?_, ?_, ?_⟩ <;> simp only [Wire.InputState.deserialize]
  · norm_num
  · by_cases h4 : 4 ≤ b.length
    · simp [h4]
    · have h8 : ¬ 8 ≤ b.length := by omega
      simp [h4, h8]
  · by_cases h4 : 4 ≤ b.length <;> by_cases h8 : 8 ≤ b.length <;>
      by_cases h9 : 9 ≤ b.length <;> by_cases h5 : 5 ≤ b.length
    all_goals simp [h4, h8, h9, h5]
    all_goals (try omega)
    all_goals (split_ifs <;> first | rfl | omega)
  · by_cases h4 : 4 ≤ b.length <;> by_cases h8 : 8 ≤ b.length <;>
      by_cases h9 : 9 ≤ b.length <;> by_cases h13 : 13 ≤ b.length
    all_goals (try omega)
    all_goals simp [h4, h8, h9, h13]
    all_goals (try omega)
    all_goals (split_ifs <;> first | rfl | omega)

namespace Wire

/-- Read four bytes and advance, as `memcpy(&f, buffer+offset, 4); offset += 4`.
A short buffer would be an out-of-bounds read in the source; the model reads
the missing bytes as zero. -/
def readW4 : List ℕ → ℕ × List ℕ
  | b0 :: b1 :: b2 :: b3 :: rest => (b0 + 256 * b1 + 65536 * b2 + 16777216 * b3, rest)
  | l => (fromBytes4 l, [])

/-- Read two bytes and advance. -/
def readW2 : List ℕ → ℕ × List ℕ
  | b0 :: b1 :: rest => (b0 + 256 * b1, rest)
  | l => (fromBytes2 l, [])

/-- Read one byte and advance. -/
def readW1 : List ℕ → ℕ × List ℕ
  | b0 :: rest => (b0, rest)
  | [] => (0, [])

theorem readW4_toBytes4 (w : ℕ) (r : List ℕ) (hw : w < 4294967296) :
    readW4 (toBytes4 w ++ r) = (w, r) := by
  have hv : w % 256 + 256 * (w / 256 % 256) + 65536 * (w / 65536 % 256)
      + 16777216 * (w / 16777216 % 256) = w := by omega
  show (w % 256 + 256 * (w / 256 % 256) + 65536 * (w / 65536 % 256)
      + 16777216 * (w / 16777216 % 256), r) = (w, r)
  rw [hv]

theorem readW2_toBytes2 (w : ℕ) (r : List ℕ) (hw : w < 65536) :
    readW2 (toBytes2 w ++ r) = (w, r) := by
  have hv : w % 256 + 256 * (w / 256 % 256) = w := by omega
  show (w % 256 + 256 * (w / 256 % 256), r) = (w, r)
  rw [hv]

/-- Wire-level `glm::vec3`: three 32-bit patterns, 12 bytes. -/
structure Vec3 where
  x : ℕ
  y : ℕ
  z : ℕ

def Vec3.serialize (v : Vec3) : List ℕ :=
  toBytes4 v.x ++ (toBytes4 v.y ++ toBytes4 v.z)

def readVec3 (b : List ℕ) : Vec3 × List ℕ :=
  let xv := readW4 b
  let yv := readW4 xv.2
  let zv := readW4 yv.2
  (⟨xv.1, yv.1, zv.1⟩, zv.2)

def Vec3.WF (v : Vec3) : Prop :=
  v.x < 4294967296 ∧ v.y < 4294967296 ∧ v.z < 4294967296

theorem readVec3_serialize (v : Vec3) (r : List ℕ) (h : v.WF) :
    readVec3 (v.serialize ++ r) = (v, r) := by
  obtain ⟨hx, hy, hz⟩ := h
  simp only [Vec3.serialize, readVec3, List.append_assoc]
  rw [readW4_toBytes4 _ _ hx]
  dsimp only
  rw [readW4_toBytes4 _ _ hy]
  dsimp only
  rw [readW4_toBytes4 _ _ hz]

/-- Wire-level `struct PlayerState` (game_state.hpp:60-108): 38 bytes. -/
structure PlayerState where
  position : Vec3
  velocity : Vec3
  facingAngle : ℕ
  hp : ℕ
  projectileCooldown : ℕ
  roundWins : ℕ
  alive : Bool

/-- `PlayerState::Serialize` (game_state.hpp:69-84). -/
def PlayerState.serialize (p : PlayerState) : List ℕ :=
  p.position.serialize ++ (p.velocity.serialize ++ (toBytes4 p.facingAngle ++
    (toBytes4 p.hp ++ (toBytes4 p.projectileCooldown ++
      ([p.roundWins] ++ [if p.alive then 1 else 0])))))

/-- `PlayerState::Deserialize` (game_state.hpp:86-101). -/
def readPlayer (b : List ℕ) : PlayerState × List ℕ :=
  let pos := readVec3 b
  let vel := readVec3 pos.2
  let fa := readW4 vel.2
  let hp := readW4 fa.2
  let cd := readW4 hp.2
  let wins := readW1 cd.2
  let al := readW1 wins.2
  (⟨pos.1, vel.1, fa.1, hp.1, cd.1, wins.1, al.1 != 0⟩, al.2)

def PlayerState.WF (p : PlayerState) : Prop :=
  p.position.WF ∧ p.velocity.WF ∧ p.facingAngle < 4294967296 ∧
  p.hp < 4294967296 ∧ p.projectileCooldown < 4294967296 ∧ p.roundWins < 256

theorem readW1_cons (b0 : ℕ) (rest : List ℕ) : readW1 (b0 :: rest) = (b0, rest) := rfl

theorem readPlayer_serialize (p : PlayerState) (r : List ℕ) (h : p.WF) :
    readPlayer (p.serialize ++ r) = (p, r) := by
  obtain ⟨hpos, hvel, hfa, hhp, hcd, hw⟩ := h
  cases p with
  | mk pos vel fa hp cd wins al =>
    simp only [PlayerState.serialize, readPlayer, List.append_assoc] at *
    rw [readVec3_serialize _ _ hpos]
    dsimp only
    rw [readVec3_serialize _ _ hvel]
    dsimp only
    rw [readW4_toBytes4 _ _ hfa]
    dsimp only
    rw [readW4_toBytes4 _ _ hhp]
    dsimp only
    rw [readW4_toBytes4 _ _ hcd]
    dsimp only
    simp only [List.singleton_append, readW1_cons]
    cases al <;> rfl

/-- Wire-level `struct ProjectileState` (game_state.hpp:21-57): 30 bytes. -/
structure ProjectileState where
  position : Vec3
  velocity : Vec3
  ownerID : ℕ
  damage : ℕ
  active : Bool

/-- `ProjectileState::Serialize` (game_state.hpp:28-39). -/
def ProjectileState.serialize (p : ProjectileState) : List ℕ :=
  p.position.serialize ++ (p.velocity.serialize ++
    ([p.ownerID] ++ (toBytes4 p.damage ++ [if p.active then 1 else 0])))

/-- `ProjectileState::Deserialize` (game_state.hpp:41-52). -/
def readProj (b : List ℕ) : ProjectileState × List ℕ :=
  let pos := readVec3 b
  let vel := readVec3 pos.2
  let ow := readW1 vel.2
  let dm := readW4 ow.2
  let ac := readW1 dm.2
  (⟨pos.1, vel.1, ow.1, dm.1, ac.1 != 0⟩, ac.2)

def ProjectileState.WF (p : ProjectileState) : Prop :=
  p.position.WF ∧ p.velocity.WF ∧ p.ownerID < 256 ∧ p.damage < 4294967296

theorem readProj_serialize (p : ProjectileState) (r : List ℕ) (h : p.WF) :
    readProj (p.serialize ++ r) = (p, r) := by
  obtain ⟨hpos, hvel, how, hdm⟩ := h
  cases p with
  | mk pos vel ow dm ac =>
    simp only [ProjectileState.serialize, readProj, List.append_assoc] at *
    rw [readVec3_serialize _ _ hpos]
    dsimp only
    rw [readVec3_serialize _ _ hvel]
    dsimp only
    simp only [List.singleton_append, readW1_cons]
    rw [readW4_toBytes4 _ _ hdm]
    cases ac <;> rfl

/-- Wire-level `struct GameState` (game_state.hpp:112-117). -/
structure GameState where
  players0 : PlayerState
  players1 : PlayerState
  projectiles : List ProjectileState
  frameNumber : ℕ
  roundTimer : ℕ
  currentRound : ℕ

/-- `GameState::Serialize` (game_state.hpp:144-171): the two players, the
16-bit projectile count (the `uint16_t` cast wraps at 65536), the projectile
records in order, then frame number, round timer and current round. -/
def GameState.serialize (g : GameState) : List ℕ :=
  g.players0.serialize ++ (g.players1.serialize ++
    (toBytes2 (g.projectiles.length % 65536) ++
      ((g.projectiles.map ProjectileState.serialize).flatten ++
        (toBytes4 g.frameNumber ++ (toBytes4 g.roundTimer ++ [g.currentRound])))))

/-- The count-driven projectile loop of `GameState::Deserialize`
(game_state.hpp:190-194). -/
def readProjs : ℕ → List ℕ → List ProjectileState × List ℕ
  | 0, b => ([], b)
  | Nat.succ n, b =>
      let p := readProj b
      let rest := readProjs n p.2
      (p.1 :: rest.1, rest.2)

/-- `GameState::Deserialize` (game_state.hpp:174-203); the `size` parameter of
the source is ignored by its body. -/
def GameState.deserialize (b : List ℕ) : GameState :=
  let p0 := readPlayer b
  let p1 := readPlayer p0.2
  let cnt := readW2 p1.2
  let projs := readProjs cnt.1 cnt.2
  let fr := readW4 projs.2
  let rt := readW4 fr.2
  let cr := readW1 rt.2
  ⟨p0.1, p1.1, projs.1, fr.1, rt.1, cr.1⟩

def GameState.WF (g : GameState) : Prop :=
  g.players0.WF ∧ g.players1.WF ∧ (∀ p ∈ g.projectiles, p.WF) ∧
  g.projectiles.length ≤ 65535 ∧ g.frameNumber < 4294967296 ∧
  g.roundTimer < 4294967296 ∧ g.currentRound < 256

theorem readProjs_serialize (ps : List ProjectileState) (r : List ℕ)
    (h : ∀ p ∈ ps, p.WF) :
    readProjs ps.length ((ps.map ProjectileState.serialize).flatten ++ r) = (ps, r) := by
  induction ps with
  | nil => rfl
  | cons p rest ih =>
      simp only [List.map_cons, List.flatten_cons, List.length_cons, List.append_assoc]
      show (let q := readProj (p.serialize ++ ((rest.map ProjectileState.serialize).flatten ++ r))
            let t := readProjs rest.length q.2
            (q.1 :: t.1, t.2)) = (p :: rest, r)
      rw [readProj_serialize p _ (h p (List.mem_cons_self p rest))]
      dsimp only
      rw [ih (fun q hq => h q (List.mem_cons_of_mem p hq))]

theorem deserializeGame_serialize (g : GameState) (h : g.WF) :
    GameState.deserialize g.serialize = g := by
  obtain ⟨h0, h1, hps, hlen, hfr, hrt, hcr⟩ := h
  have hcnt : g.projectiles.length % 65536 = g.projectiles.length :=
    Nat.mod_eq_of_lt (by omega)
  simp only [GameState.serialize, GameState.deserialize, List.append_assoc]
  rw [readPlayer_serialize _ _ h0]
  dsimp only
  rw [readPlayer_serialize _ _ h1]
  dsimp only
  rw [readW2_toBytes2 _ _ (by omega)]
  dsimp only
  rw [hcnt, readProjs_serialize _ _ hps]
  dsimp only
  rw [readW4_toBytes4 _ _ hfr]
  dsimp only
  rw [readW4_toBytes4 _ _ hrt]
  dsimp only
  simp only [readW1_cons]

end Wire

namespace Wire

theorem deserializeInput_serialize (self x : InputState) (hx : x.WF) :
    InputState.deserialize self x.serialize = x := by
  obtain ⟨h1, h2, h3⟩ := hx
  cases x with
  | mk mX mY th fr =>
    have hlen : (InputState.serialize ⟨mX, mY, th, fr⟩).length = 13 := by
      simp [InputState.serialize, toBytes4]
    have ea : fromBytes4 (InputState.serialize ⟨mX, mY, th, fr⟩) = mX :=
      fromBytes4_toBytes4 mX (toBytes4 mY ++ ([if th then 1 else 0] ++ toBytes4 fr)) h1
    have eb : fromBytes4 ((InputState.serialize ⟨mX, mY, th, fr⟩).drop 4) = mY :=
      fromBytes4_toBytes4 mY ([if th then 1 else 0] ++ toBytes4 fr) h2
    have ed : fromBytes4 ((InputState.serialize ⟨mX, mY, th, fr⟩).drop 9) = fr :=
      fromBytes4_toBytes4 fr [] h3
    unfold InputState.deserialize
    rw [hlen]
    norm_num
    refine ⟨ea, eb, ?_, ed⟩
    cases th <;> rfl

end Wire

/-- Claim C2: codec round-trip.  Deserializing the bytes produced by
`GameState::Serialize` restores every field of the original state (given at
most 65535 projectiles, so the 16-bit count does not wrap), and deserializing
the bytes of `InputState::Serialize` into any object restores the serialized
input field-for-field.  Scalar fields are modelled by their 32-bit patterns,
so equality of fields is bit-pattern equality. -/
theorem serialize_roundTrip :
    (∀ g : Wire.GameState, g.WF → Wire.GameState.deserialize g.serialize = g) ∧
    (∀ (self x : Wire.InputState), x.WF →
        Wire.InputState.deserialize self x.serialize = x) :=
  ⟨fun g h => Wire.deserializeGame_serialize g h,
   fun self x h => Wire.deserializeInput_serialize self x h⟩

namespace Wire

/-- Concrete sample values for the codec round-trip witness; the moveX word
is the bit pattern of 1.0f. -/
def sampleVec : Vec3 := ⟨1, 2, 3⟩

def samplePlayer : PlayerState := ⟨sampleVec, sampleVec, 77, 100, 0, 1, true⟩

def sampleProj : ProjectileState := ⟨sampleVec, sampleVec, 1, 10, true⟩

def sampleGame : GameState := ⟨samplePlayer, samplePlayer, [sampleProj], 42, 99, 2⟩

def sampleInput : InputState := ⟨1065353216, 0, true, 7⟩

end Wire

/-- Witness for C2 at a concrete one-projectile state and a concrete input. -/
theorem serialize_roundTrip_witness :
    Wire.sampleGame.WF ∧ Wire.sampleInput.WF ∧
    Wire.GameState.deserialize Wire.sampleGame.serialize = Wire.sampleGame ∧
    Wire.InputState.deserialize Wire.inputInit Wire.sampleInput.serialize
      = Wire.sampleInput := by
  have hg : Wire.sampleGame.WF := by
    constructor
    · exact ⟨⟨by decide, by decide, by decide⟩, ⟨by decide, by decide, by decide⟩,
        by decide, by decide, by decide, by decide⟩
    refine ⟨⟨⟨by decide, by decide, by decide⟩, ⟨by decide, by decide, by decide⟩,
        by decide, by decide, by decide, by decide⟩, ?_, by decide, by decide, by decide, by decide⟩
    intro p hp
    have : p = Wire.sampleProj := by
      simpa [Wire.sampleGame] using hp
    rw [this]
    exact ⟨⟨by decide, by decide, by decide⟩, ⟨by decide, by decide, by decide⟩,
      by decide, by decide⟩
  have hi : Wire.sampleInput.WF := ⟨by decide, by decide, by decide⟩
  exact ⟨hg, hi, serialize_roundTrip.1 _ hg, serialize_roundTrip.2 _ _ hi⟩

namespace Net

/-- A connected transport peer as the server sees it: an identity (standing in
for the `ENetPeer*` pointer) and whether the peer object has already
transitioned to the disconnected state (`peer->state ==
ENET_PEER_STATE_DISCONNECTED`). -/
structure PeerRef where
  id : ℕ
  disconnected : Bool

/-- The mutable server fields that the connect handler touches
(network_layer.hpp:406-409): the two peer slots and the per-slot input
queues. -/
structure ServerNetwork where
  peer0 : Option PeerRef
  peer1 : Option PeerRef
  pendingInputs0 : List Sim.InputState
  pendingInputs1 : List Sim.InputState

/-- Packets the connect handler can send. -/
inductive ServerPacket
  | PLAYER_JOINED (slot : ℕ)
  | GAME_START

/-- The externally visible actions of the connect handler. -/
inductive ServerAction
  | send (target : ℕ) (packet : ServerPacket)
  | disconnect (target : ℕ)

/-- The reaping loop at network_layer.hpp:295-301: a slot whose peer has
already disconnected is cleared and its buffered input discarded. -/
def reapStale (st : ServerNetwork) : ServerNetwork :=
  let st1 :=
    match st.peer0 with
    | some p => if p.disconnected then
        { st with peer0 := none, pendingInputs0 := [] } else st
    | none => st
  match st1.peer1 with
  | some p => if p.disconnected then
      { st1 with peer1 := none, pendingInputs1 := [] } else st1
  | none => st1

/-- The GAME_START broadcast at network_layer.hpp:323-331, sent to both peers
when both slots are occupied. -/
def startMsgs (st : ServerNetwork) : List ServerAction :=
  match st.peer0, st.peer1 with
  | some a, some b =>
      [ServerAction.send a.id ServerPacket.GAME_START,
       ServerAction.send b.id ServerPacket.GAME_START]
  | _, _ => []

/-- The ENET_EVENT_TYPE_CONNECT case of `ServerNetwork::Update`
(network_layer.hpp:293-337): reap stale slots, assign the lowest free slot
(slot 0 preferred), send the new client its slot index, broadcast GAME_START
when both slots are now occupied, and disconnect the new peer when no slot is
free. -/
def handleConnect (st : ServerNetwork) (newPeer : PeerRef) :
    ServerNetwork × List ServerAction :=
  let r := reapStale st
  match r.peer0 with
  | none =>
      let st2 := { r with peer0 := some newPeer }
      (st2, ServerAction.send newPeer.id (ServerPacket.PLAYER_JOINED 0) :: startMsgs st2)
  | some _ =>
      match r.peer1 with
      | none =>
          let st2 := { r with peer1 := some newPeer }
          (st2, ServerAction.send newPeer.id (ServerPacket.PLAYER_JOINED 1) :: startMsgs st2)
      | some _ => (r, [ServerAction.disconnect newPeer.id])

/-- How many of the two slots hold a peer. -/
def occupiedCount (st : ServerNetwork) : ℕ :=
  (if st.peer0.isSome then 1 else 0) + (if st.peer1.isSome then 1 else 0)

end Net

namespace Net

theorem reapStale_slot0 (st : ServerNetwork) (q : PeerRef)
    (hq : st.peer0 = some q) (hd : q.disconnected = true) :
    (reapStale st).peer0 = none ∧ (reapStale st).pendingInputs0 = [] := by
  cases hq1 : st.peer1 with
  | none => simp [reapStale, hq, hd, hq1]
  | some q1 => cases hd1 : q1.disconnected <;> simp [reapStale, hq, hd, hq1, hd1]

theorem reapStale_slot1 (st : ServerNetwork) (q : PeerRef)
    (hq : st.peer1 = some q) (hd : q.disconnected = true) :
    (reapStale st).peer1 = none ∧ (reapStale st).pendingInputs1 = [] := by
  cases hq0 : st.peer0 with
  | none => simp [reapStale, hq, hd, hq0]
  | some q0 => cases hd0 : q0.disconnected <;> simp [reapStale, hq, hd, hq0, hd0]

theorem occupiedCount_le_two (st : ServerNetwork) : occupiedCount st ≤ 2 := by
  unfold occupiedCount
  split <;> split <;> omega

end Net

/-- Claim C9: on a connection event the server first reaps slots whose peer
already disconnected (discarding their buffered input), then assigns the new
connection to the lowest free slot (slot 0 preferred) and sends it
PLAYER_JOINED with that slot index as the first action; GAME_START is
broadcast exactly when a slot was assigned and both slots are occupied
afterwards; with no free slot the connection is disconnected and the state
unchanged; at most two slots are ever occupied. -/
theorem connect_slot_assignment (st : Net.ServerNetwork) (p : Net.PeerRef) :
    (∀ q : Net.PeerRef, st.peer0 = some q → q.disconnected = true →
       (Net.reapStale st).peer0 = none ∧ (Net.reapStale st).pendingInputs0 = []) ∧
    (∀ q : Net.PeerRef, st.peer1 = some q → q.disconnected = true →
       (Net.reapStale st).peer1 = none ∧ (Net.reapStale st).pendingInputs1 = []) ∧
    ((Net.reapStale st).peer0 = none →
       (Net.handleConnect st p).1.peer0 = some p ∧
       (Net.handleConnect st p).1.peer1 = (Net.reapStale st).peer1 ∧
       (Net.handleConnect st p).2.head?
         = some (Net.ServerAction.send p.id (Net.ServerPacket.PLAYER_JOINED 0))) ∧
    ((Net.reapStale st).peer0 ≠ none → (Net.reapStale st).peer1 = none →
       (Net.handleConnect st p).1.peer1 = some p ∧
       (Net.handleConnect st p).1.peer0 = (Net.reapStale st).peer0 ∧
       (Net.handleConnect st p).2.head?
         = some (Net.ServerAction.send p.id (Net.ServerPacket.PLAYER_JOINED 1))) ∧
    ((Net.reapStale st).peer0 ≠ none → (Net.reapStale st).peer1 ≠ none →
       (Net.handleConnect st p).1 = Net.reapStale st ∧
       (Net.handleConnect st p).2 = [Net.ServerAction.disconnect p.id]) ∧
    ((∃ t, Net.ServerAction.send t Net.ServerPacket.GAME_START ∈ (Net.handleConnect st p).2) ↔
       (Net.handleConnect st p).1.peer0.isSome = true ∧
       (Net.handleConnect st p).1.peer1.isSome = true ∧
       ((Net.reapStale st).peer0 = none ∨ (Net.reapStale st).peer1 = none)) ∧
    Net.occupiedCount (Net.handleConnect st p).1 ≤ 2 := by
  refine ⟨Net.reapStale_slot0 st, Net.reapStale_slot1 st, ?_, ?_, ?_, ?_,
    Net.occupiedCount_le_two _⟩
  · intro h0
    cases hr1 : (Net.reapStale st).peer1 with
    | none => simp [Net.handleConnect, Net.startMsgs, h0, hr1]
    | some q1 => simp [Net.handleConnect, Net.startMsgs, h0, hr1]
  · intro h0 h1
    cases hr0 : (Net.reapStale st).peer0 with
    | none => exact absurd hr0 h0
    | some q0 => simp [Net.handleConnect, Net.startMsgs, hr0, h1]
  · intro h0 h1
    cases hr0 : (Net.reapStale st).peer0 with
    | none => exact absurd hr0 h0
    | some q0 =>
        cases hr1 : (Net.reapStale st).peer1 with
        | none => exact absurd hr1 h1
        | some q1 => simp [Net.handleConnect, hr0, hr1]
  · cases hr0 : (Net.reapStale st).peer0 with
    | none =>
        cases hr1 : (Net.reapStale st).peer1 with
        | none => simp [Net.handleConnect, Net.startMsgs, hr0, hr1]
        | some q1 => simp [Net.handleConnect, Net.startMsgs, hr0, hr1]
    | some q0 =>
        cases hr1 : (Net.reapStale st).peer1 with
        | none => simp [Net.handleConnect, Net.startMsgs, hr0, hr1]
        | some q1 => simp [Net.handleConnect, Net.startMsgs, hr0, hr1]

namespace Net

/-- A server state with a stale (already disconnected) peer in slot 0 holding
a buffered input, and a live peer in slot 1. -/
noncomputable def stStale : ServerNetwork :=
  { peer0 := some ⟨7, true⟩, peer1 := some ⟨3, false⟩,
    pendingInputs0 := [Sim.zeroInput], pendingInputs1 := [] }

/-- The newly connecting peer. -/
def pNew : PeerRef := ⟨9, false⟩

end Net

/-- Witness for C9: connecting to a server with a stale slot 0 and a live
slot 1 reaps the stale slot and its buffered input, assigns slot 0 to the new
peer, sends it PLAYER_JOINED 0 first, and broadcasts GAME_START. -/
theorem connect_slot_assignment_witness :
    (Net.reapStale Net.stStale).peer0 = none ∧
    (Net.reapStale Net.stStale).pendingInputs0 = [] ∧
    (Net.handleConnect Net.stStale Net.pNew).1.peer0 = some Net.pNew ∧
    (Net.handleConnect Net.stStale Net.pNew).2.head?
      = some (Net.ServerAction.send Net.pNew.id (Net.ServerPacket.PLAYER_JOINED 0)) ∧
    (∃ t, Net.ServerAction.send t Net.ServerPacket.GAME_START
      ∈ (Net.handleConnect Net.stStale Net.pNew).2) := by
  have hreap := (connect_slot_assignment Net.stStale Net.pNew).1 ⟨7, true⟩ rfl rfl
  have hassign := (connect_slot_assignment Net.stStale Net.pNew).2.2.1 hreap.1
  have hgs := (connect_slot_assignment Net.stStale Net.pNew).2.2.2.2.2.1.mpr
    ⟨by rw [hassign.1]; rfl,
     by rw [hassign.2.1]; rfl,
     Or.inl hreap.1⟩
  exact ⟨hreap.1, hreap.2, hassign.1, hassign.2.2, hgs⟩
